import Mathlib

/-!
Verification of the FSoE (Fail-Safe over EtherCAT) master/slave stack headers
from rtlabs-com/fsoe-soem-demo against its natural-language specification.

The repository ships the public headers (fsoetypes.h, fsoemaster.h,
fsoeslave.h, fsoeapp.h, fsoeoptions.h) and a sample host program.  Macros and
data-structure layouts are embedded directly from those headers.  The state
machine, watchdog, CRC and API-function bodies (fsoemaster.c, fsoeslave.c,
fsoewatchdog.c, fsoeframe.c) are not part of the repository; where a claim
depends on them, the corresponding definition is modelled from the spec and
says so in its doc comment.
-/

set_option maxRecDepth 8000

/-- Maximum size of FSoE process data in bytes, from fsoeoptions.h:
`#define FSOE_PROCESS_DATA_MAX_SIZE (126)`. -/
def FSOE_PROCESS_DATA_MAX_SIZE : Nat := 126

/-- Maximum size of FSoE application parameters in bytes, from fsoeoptions.h:
`#define FSOE_APPLICATION_PARAMETERS_MAX_SIZE (256)`. -/
def FSOE_APPLICATION_PARAMETERS_MAX_SIZE : Nat := 256

/-- Frame-size macro from fsoetypes.h:
`#define FSOEFRAME_SIZE(data_size) ( ((data_size) == 1) ? 6 : (2 * (data_size) + 3) )`. -/
def FSOEFRAME_SIZE (data_size : Nat) : Nat :=
  if data_size = 1 then 6 else 2 * data_size + 3

/-- Frame-size macro from fsoemaster.h, textually identical to FSOEFRAME_SIZE:
`#define FSOEMASTER_FRAME_SIZE(data_size) ( ((data_size) == 1) ? 6 : (2 * (data_size) + 3) )`. -/
def FSOEMASTER_FRAME_SIZE (data_size : Nat) : Nat :=
  if data_size = 1 then 6 else 2 * data_size + 3

/-- Frame-size macro from fsoeslave.h, textually identical to FSOEFRAME_SIZE:
`#define FSOESLAVE_FRAME_SIZE(data_size) ( ((data_size) == 1) ? 6 : (2 * (data_size) + 3) )`. -/
def FSOESLAVE_FRAME_SIZE (data_size : Nat) : Nat :=
  if data_size = 1 then 6 else 2 * data_size + 3

/-- Valid process-data sizes per fsoemaster.h / fsoeslave.h configuration docs:
"Only even values are allowed, except for 1, which is also allowed.
Maximum value is FSOE_PROCESS_DATA_MAX_SIZE." (and a frame needs at least
one data byte, so 0 is excluded and even sizes start at 2). -/
def fsoe_valid_data_size (n : Nat) : Bool :=
  n == 1 || (n % 2 == 0 && decide (2 ≤ n) && decide (n ≤ FSOE_PROCESS_DATA_MAX_SIZE))

/-- Capacity in bytes of the `au8Data` member of `fsoeframe_t` from fsoetypes.h:
`uint8_t au8Data[FSOEFRAME_SIZE (FSOE_PROCESS_DATA_MAX_SIZE) + 1]`, where the
extra byte at the end is used for buffer overflow detection. -/
def fsoeframe_buffer_capacity : Nat :=
  FSOEFRAME_SIZE FSOE_PROCESS_DATA_MAX_SIZE + 1

/-- Modelled from the spec: frame assembly (file fsoeframe.c, which is not in
the repository) writes a complete frame into the first `frame.length` bytes of
the instance's frame buffer, leaving the remaining bytes untouched. -/
def fsoeframe_write (buffer : List Nat) (frame : List Nat) : List Nat :=
  frame ++ buffer.drop frame.length

/-- Claim C1: for every valid data size N (N = 1 or N even with 2 <= N <= 126),
the frame-size macros FSOEMASTER_FRAME_SIZE, FSOESLAVE_FRAME_SIZE and
FSOEFRAME_SIZE all compute max (3 + 2*N) 6 bytes. -/
theorem C1_frame_size_is_max (n : Nat) (h : fsoe_valid_data_size n = true) :
    FSOEMASTER_FRAME_SIZE n = max (3 + 2 * n) 6 ∧
    FSOESLAVE_FRAME_SIZE n = max (3 + 2 * n) 6 ∧
    FSOEFRAME_SIZE n = max (3 + 2 * n) 6 := by
  simp only [fsoe_valid_data_size, FSOE_PROCESS_DATA_MAX_SIZE, Bool.or_eq_true,
    Bool.and_eq_true, beq_iff_eq, decide_eq_true_eq] at h
  refine ⟨?_, ?_, ?_⟩ <;>
    simp only [FSOEMASTER_FRAME_SIZE, FSOESLAVE_FRAME_SIZE, FSOEFRAME_SIZE] <;>
    rcases h with h1 | ⟨⟨he, h2⟩, h126⟩ <;> split <;> omega

/-- Witness for C1 at the concrete size N = 1. -/
theorem C1_frame_size_is_max_witness :
    fsoe_valid_data_size 1 = true ∧ FSOEMASTER_FRAME_SIZE 1 = max (3 + 2 * 1) 6 :=
  ⟨by decide, (C1_frame_size_is_max 1 (by decide)).1⟩

/-- Claim C10: for every valid data size N, FSOEFRAME_SIZE N is at most 255,
hence strictly less than the 256-byte `au8Data` buffer of `fsoeframe_t`, and
writing a frame of that size into a full-capacity buffer leaves the final
guard byte (reserved for overflow detection) unchanged. -/
theorem C10_frame_fits_buffer (n : Nat) (buffer frame : List Nat)
    (hn : fsoe_valid_data_size n = true)
    (hbuf : buffer.length = fsoeframe_buffer_capacity)
    (hframe : frame.length = FSOEFRAME_SIZE n) :
    FSOEFRAME_SIZE n ≤ 255 ∧
    FSOEFRAME_SIZE n < fsoeframe_buffer_capacity ∧
    (fsoeframe_write buffer frame).length = buffer.length ∧
    (fsoeframe_write buffer frame)[255]? = buffer[255]? := by
  simp only [fsoe_valid_data_size, FSOE_PROCESS_DATA_MAX_SIZE, Bool.or_eq_true,
    Bool.and_eq_true, beq_iff_eq, decide_eq_true_eq] at hn
  have hcap : fsoeframe_buffer_capacity = 256 := by decide
  have hsize : FSOEFRAME_SIZE n ≤ 255 := by
    simp only [FSOEFRAME_SIZE]
    rcases hn with h1 | ⟨⟨he, h2⟩, h126⟩ <;> split <;> omega
  refine ⟨hsize, by omega, ?_, ?_⟩
  · simp only [fsoeframe_write, List.length_append, List.length_drop]
    omega
  · have hlt : frame.length ≤ 255 := by omega
    rw [fsoeframe_write, List.getElem?_append_right hlt, List.getElem?_drop]
    congr 1
    omega

/-- Witness for C10 at N = 126 with a concrete 256-byte buffer whose guard
byte is 7 and a concrete 255-byte frame. -/
theorem C10_frame_fits_buffer_witness :
    fsoe_valid_data_size 126 = true ∧
    (List.replicate 255 (9 : Nat) ++ [7]).length = fsoeframe_buffer_capacity ∧
    (List.replicate 255 (1 : Nat)).length = FSOEFRAME_SIZE 126 ∧
    (fsoeframe_write (List.replicate 255 (9 : Nat) ++ [7])
      (List.replicate 255 (1 : Nat)))[255]? =
      (List.replicate 255 (9 : Nat) ++ [7])[255]? :=
  ⟨by decide, by decide, by decide,
    (C10_frame_fits_buffer 126 _ _ (by decide) (by decide) (by decide)).2.2.2⟩

/-! ## Watchdog timer (claim C2)

The struct `fsoewatchdog_t` is declared in fsoetypes.h; its operations live in
fsoewatchdog.c, which is not in the repository, so they are modelled from the
spec (section 4.3 and the data-model bullet on the watchdog). -/

/-- Largest value of a `uint32_t`, used by `fsoemaster_get_time_until_timeout_ms`
to signal a stopped watchdog timer. -/
def UINT32_MAX : Nat := 4294967295

/-- Modulus of 32-bit arithmetic on ticks. -/
def fsoe_tick_modulus : Nat := 4294967296

/-- Watchdog timer state, embedded from `fsoewatchdog_t` in fsoetypes.h:
start tick, timeout in milliseconds and a running flag. -/
structure fsoewatchdog where
  start_tick : Nat
  timeout_ms : Nat
  is_started : Bool
deriving DecidableEq

/-- Modelled from the spec: `start(timeout_ms)` of the watchdog component
(fsoewatchdog.c is not in the repository) records the current monotonic tick
and the timeout and marks the timer running.  Ticks are 32-bit values. -/
def fsoewatchdog_start (now timeout : Nat) : fsoewatchdog :=
  ⟨now % fsoe_tick_modulus, timeout, true⟩

/-- Modelled from the spec: elapsed milliseconds `now - start_tick` computed in
32-bit modular arithmetic. -/
def fsoewatchdog_elapsed (wd : fsoewatchdog) (now : Nat) : Nat :=
  (now % fsoe_tick_modulus + fsoe_tick_modulus - wd.start_tick % fsoe_tick_modulus) %
    fsoe_tick_modulus

/-- Modelled from the spec: the watchdog is expired when it is running and
`now - start_tick >= timeout_ms`. -/
def fsoewatchdog_is_expired (wd : fsoewatchdog) (now : Nat) : Bool :=
  wd.is_started && decide (wd.timeout_ms ≤ fsoewatchdog_elapsed wd now)

/-- Modelled from the spec: `fsoemaster_get_time_until_timeout_ms` /
`fsoeslave_get_time_until_timeout_ms` report the remaining milliseconds,
or UINT32_MAX when the watchdog timer is not started (fsoemaster.h line 911). -/
def fsoewatchdog_get_time_until_timeout_ms (wd : fsoewatchdog) (now : Nat) : Nat :=
  if wd.is_started then wd.timeout_ms - fsoewatchdog_elapsed wd now else UINT32_MAX

/-- Elapsed time after starting at tick t0 and querying at tick (t0 + k),
with both reduced to 32 bits, is exactly k for k below the tick modulus. -/
theorem fsoewatchdog_elapsed_start (t0 k T : Nat) (hk : k < fsoe_tick_modulus) :
    fsoewatchdog_elapsed (fsoewatchdog_start t0 T) ((t0 + k) % fsoe_tick_modulus) = k := by
  simp only [fsoewatchdog_elapsed, fsoewatchdog_start, fsoe_tick_modulus] at *
  omega

/-- Claim C2: a watchdog started with timeout T at tick t0, queried at tick
t0 + k (32-bit tick arithmetic, k below 2^32), is expired iff k >= T; while
not expired, the time-until-timeout query reports the remaining T - k
milliseconds; and for any watchdog whose timeout fits in `uint16_t` (as every
configured watchdog_timeout_ms does), the query returns UINT32_MAX iff the
timer is not started. -/
theorem C2_watchdog_expiry (t0 k T : Nat) (wd : fsoewatchdog)
    (hk : k < fsoe_tick_modulus) (hT : wd.timeout_ms ≤ 65535) :
    (fsoewatchdog_is_expired (fsoewatchdog_start t0 T) ((t0 + k) % fsoe_tick_modulus) = true
      ↔ T ≤ k) ∧
    (k < T →
      fsoewatchdog_get_time_until_timeout_ms (fsoewatchdog_start t0 T)
        ((t0 + k) % fsoe_tick_modulus) = T - k) ∧
    (∀ now : Nat, fsoewatchdog_get_time_until_timeout_ms wd now = UINT32_MAX
      ↔ wd.is_started = false) := by
  have helapsed := fsoewatchdog_elapsed_start t0 k T hk
  refine ⟨?_, ?_, ?_⟩
  · unfold fsoewatchdog_is_expired
    rw [helapsed]
    simp [fsoewatchdog_start]
  · intro hlt
    unfold fsoewatchdog_get_time_until_timeout_ms
    rw [helapsed]
    simp [fsoewatchdog_start]
  · intro now
    simp only [fsoewatchdog_get_time_until_timeout_ms]
    constructor
    · intro h
      by_contra hs
      rw [if_pos (by revert hs; cases wd.is_started <;> simp)] at h
      have : wd.timeout_ms - fsoewatchdog_elapsed wd now ≤ 65535 := by omega
      simp only [UINT32_MAX] at h
      omega
    · intro h
      rw [if_neg (by simp [h])]

/-- Witness for C2 at t0 = 100, k = 30, T = 50 and a stopped watchdog. -/
theorem C2_watchdog_expiry_witness :
    (30 < fsoe_tick_modulus ∧ (⟨0, 50, false⟩ : fsoewatchdog).timeout_ms ≤ 65535) ∧
    (fsoewatchdog_is_expired (fsoewatchdog_start 100 50) ((100 + 30) % fsoe_tick_modulus) = true
      ↔ 50 ≤ 30) ∧
    (fsoewatchdog_get_time_until_timeout_ms (fsoewatchdog_start 100 50)
      ((100 + 30) % fsoe_tick_modulus) = 50 - 30) ∧
    (fsoewatchdog_get_time_until_timeout_ms ⟨0, 50, false⟩ 7 = UINT32_MAX
      ↔ (⟨0, 50, false⟩ : fsoewatchdog).is_started = false) := by
  have h := C2_watchdog_expiry 100 30 50 ⟨0, 50, false⟩ (by decide) (by decide)
  exact ⟨⟨by decide, by decide⟩, h.1, h.2.1 (by decide), h.2.2 7⟩

/-! ## SRA CRC (claim C7)

`fsoemaster_update_sra_crc` and `fsoeslave_update_sra_crc` are declared in
fsoemaster.h / fsoeslave.h but their shared implementation is not in the
repository.  The spec (sections 4.1 and 4.6) describes them as a pure 32-bit
CRC update over a byte buffer, computed byte by byte; the exact polynomial is
deferred to ETG.5120, so a standard reflected CRC-32 byte step stands in for
it here -- every property proved below is independent of the polynomial. -/

/-- Modelled from the spec: one bit step of the 32-bit SRA CRC, on `Nat` with
explicit 32-bit masking. -/
def fsoe_sra_crc_bit (crc : Nat) : Nat :=
  if crc % 2 = 1 then (crc / 2) ^^^ 0xEDB88320 else crc / 2

/-- Modelled from the spec: one byte step of the 32-bit SRA CRC. -/
def fsoe_sra_crc_byte (crc b : Nat) : Nat :=
  let x := (crc ^^^ b % 256) % 4294967296
  fsoe_sra_crc_bit (fsoe_sra_crc_bit (fsoe_sra_crc_bit (fsoe_sra_crc_bit
    (fsoe_sra_crc_bit (fsoe_sra_crc_bit (fsoe_sra_crc_bit (fsoe_sra_crc_bit x)))))))

/-- Modelled from the spec: `fsoemaster_update_sra_crc(crc, data, size)` updates
the CRC over the `size` bytes of `data`, one byte at a time; a call with size 0
leaves the CRC value unmodified (fsoemaster.h lines 723-724). -/
def fsoemaster_update_sra_crc (crc : Nat) (data : List Nat) : Nat :=
  data.foldl fsoe_sra_crc_byte crc

/-- Modelled from the spec: `fsoeslave_update_sra_crc` is the same pure CRC
update provided under the slave API name (fsoeslave.h lines 698-701). -/
def fsoeslave_update_sra_crc (crc : Nat) (data : List Nat) : Nat :=
  data.foldl fsoe_sra_crc_byte crc

/-- Claim C7: starting from CRC 0, updating with buffer a and then buffer b
equals one update with the concatenation a ++ b, for both the master and the
slave entry point; and an update with an empty buffer (size 0) leaves the CRC
unmodified. -/
theorem C7_sra_crc_append :
    (∀ a b : List Nat,
      fsoemaster_update_sra_crc (fsoemaster_update_sra_crc 0 a) b =
        fsoemaster_update_sra_crc 0 (a ++ b)) ∧
    (∀ a b : List Nat,
      fsoeslave_update_sra_crc (fsoeslave_update_sra_crc 0 a) b =
        fsoeslave_update_sra_crc 0 (a ++ b)) ∧
    (∀ crc : Nat, fsoemaster_update_sra_crc crc [] = crc) ∧
    (∀ crc : Nat, fsoeslave_update_sra_crc crc [] = crc) := by
  refine ⟨?_, ?_, fun _ => rfl, fun _ => rfl⟩ <;>
    intro a b <;>
    simp only [fsoemaster_update_sra_crc, fsoeslave_update_sra_crc, List.foldl_append]

/-! ## Connection state machines (claims C3, C4, C5, C8)

The master and slave state machines live in fsoemaster.c and fsoeslave.c,
which are not in the repository.  The models below are built from the spec
(sections 4.4, 4.5 and 7) and from the state/reset-reason documentation in
fsoemaster.h and fsoeslave.h.  Host callbacks (fsoeapp_recv outcome including
frame validation, fsoeapp_generate_session_id, fsoeapp_verify_parameters,
watchdog expiry) are modelled as explicit inputs of one `sync` call. -/

/-- Reset reason codes from fsoemaster.h lines 119-253. -/
def FSOEMASTER_RESETREASON_LOCAL_RESET : Nat := 0

/-- Reset reason 1 from fsoemaster.h: frame of wrong command for current state. -/
def FSOEMASTER_RESETREASON_INVALID_CMD : Nat := 1

/-- Reset reason 2 from fsoemaster.h: frame of unknown command type. -/
def FSOEMASTER_RESETREASON_UNKNOWN_CMD : Nat := 2

/-- Reset reason 3 from fsoemaster.h: frame with invalid Connection ID. -/
def FSOEMASTER_RESETREASON_INVALID_CONNID : Nat := 3

/-- Reset reason 4 from fsoemaster.h: frame with invalid CRCs. -/
def FSOEMASTER_RESETREASON_INVALID_CRC : Nat := 4

/-- Reset reason 5 from fsoemaster.h: watchdog timer expired. -/
def FSOEMASTER_RESETREASON_WD_EXPIRED : Nat := 5

/-- Reset reason 6 from fsoemaster.h: wrong slave address in a Connection
frame; per its documentation it is never requested by the master state
machine. -/
def FSOEMASTER_RESETREASON_INVALID_ADDRESS : Nat := 6

/-- Reset reason 7 from fsoemaster.h: slave echoed different Connection or
Parameter data than what was sent to it. -/
def FSOEMASTER_RESETREASON_INVALID_DATA : Nat := 7

/-- Reset reason codes from fsoeslave.h lines 120-254 (same values). -/
def FSOESLAVE_RESETREASON_LOCAL_RESET : Nat := 0

/-- Reset reason 1 from fsoeslave.h: frame of wrong command for current state. -/
def FSOESLAVE_RESETREASON_INVALID_CMD : Nat := 1

/-- Reset reason 2 from fsoeslave.h: frame of unknown command type. -/
def FSOESLAVE_RESETREASON_UNKNOWN_CMD : Nat := 2

/-- Reset reason 3 from fsoeslave.h: frame with invalid Connection ID. -/
def FSOESLAVE_RESETREASON_INVALID_CONNID : Nat := 3

/-- Reset reason 4 from fsoeslave.h: frame with invalid CRCs. -/
def FSOESLAVE_RESETREASON_INVALID_CRC : Nat := 4

/-- Reset reason 5 from fsoeslave.h: watchdog timer expired. -/
def FSOESLAVE_RESETREASON_WD_EXPIRED : Nat := 5

/-- Reset reason 6 from fsoeslave.h: Connection frame with incorrect slave
address received from master. -/
def FSOESLAVE_RESETREASON_INVALID_ADDRESS : Nat := 6

/-- Reset reason 8 from fsoeslave.h: wrong size of communication parameters. -/
def FSOESLAVE_RESETREASON_INVALID_COMPARALEN : Nat := 8

/-- Reset reason 10 from fsoeslave.h: wrong size of application parameters. -/
def FSOESLAVE_RESETREASON_INVALID_USERPARALEN : Nat := 10

/-- Connection states from `fsoemaster_state_t` / `fsoeslave_state_t`
(fsoemaster.h lines 344-351, fsoeslave.h lines 346-353). -/
inductive fsoestate
  | reset
  | session
  | connection
  | parameter
  | data
deriving DecidableEq

/-- FSoE frame commands per spec section 3 ("Command byte. One of
{FailSafeData, ProcessData, Reset, Session, Connection, Parameter}"). -/
inductive fsoecmd
  | failsafedata
  | processdata
  | reset
  | session
  | connection
  | parameter
deriving DecidableEq

/-- One frame handed to fsoeapp_send: its command and its data bytes. -/
structure fsoetx where
  cmd : fsoecmd
  frame_data : List Nat
deriving DecidableEq

/-- Reset events from `fsoemaster_resetevent_t` (fsoemaster.h lines 361-374). -/
inductive fsoemaster_resetevent
  | none
  | by_master
  | by_slave
deriving DecidableEq

/-- Sync status from `fsoemaster_syncstatus_t` (fsoemaster.h lines 381-422). -/
structure fsoemaster_syncstatus where
  is_process_data_received : Bool
  reset_event : fsoemaster_resetevent
  reset_reason : Nat
  current_state : fsoestate
deriving DecidableEq

/-- Master state-machine instance, the modelled fields of `fsoemaster_t`
(fsoemaster.h lines 544-617). -/
structure fsoemaster_inst where
  state : fsoestate
  process_data_sending_enabled : Bool
  is_reset_requested : Bool
  SessionId : Nat
  slave_session_id : Nat
  ConnData : List Nat
  SafePara : List Nat
  SafeInputs : List Nat
  inputs_size : Nat
  outputs_size : Nat
  sync_status : fsoemaster_syncstatus
deriving DecidableEq

/-- Outcome of the black-channel recv plus frame validation for one master
sync cycle: no new frame, a validated frame, or one of the three validation
failures (spec section 4.2). -/
inductive fsoemaster_rx
  | no_frame
  | frame (cmd : fsoecmd) (frame_data : List Nat)
  | bad_crc
  | bad_connid
  | unknown_cmd
deriving DecidableEq

/-- Result of one master sync call: the updated instance, the frames passed
to fsoeapp_send, and the inputs buffer handed back to the host. -/
structure fsoemaster_syncresult where
  inst : fsoemaster_inst
  tx : List fsoetx
  inputs : List Nat
deriving DecidableEq

/-- All-zero fail-safe buffer of n bytes. -/
def fsoe_zeros (n : Nat) : List Nat := List.replicate n 0

/-- Little-endian decoding of a 16-bit word from two bytes, per spec section 3
("little-endian in frames"). -/
def fsoe_uint16_le (lo hi : Nat) : Nat := lo % 256 + 256 * (hi % 256)

/-- Little-endian encoding of a 16-bit word, low byte first. -/
def fsoe_uint16_bytes (v : Nat) : List Nat := [v % 256, v / 256 % 256]

/-- Slave address carried in ConnData, bytes 2 and 3 of the Connection-state
data (`fsoeframe_encoded_conndata_t` in fsoetypes.h: ConnId then
SlaveAddress, little endian). -/
def fsoeframe_conndata_slave_address (d : List Nat) : Nat :=
  fsoe_uint16_le (d.getD 2 0) (d.getD 3 0)

/-- WatchdogSize field of a SafePara block, bytes 0-1
(`fsoeframe_encoded_safepara_t` in fsoetypes.h). -/
def fsoeframe_safepara_watchdog_size (d : List Nat) : Nat :=
  fsoe_uint16_le (d.getD 0 0) (d.getD 1 0)

/-- Application-parameter-size field of a SafePara block, bytes 4-5
(`fsoeframe_encoded_safepara_t` in fsoetypes.h). -/
def fsoeframe_safepara_app_size (d : List Nat) : Nat :=
  fsoe_uint16_le (d.getD 4 0) (d.getD 5 0)

/-- Modelled from the spec: a reset initiated by the master state machine or
application -- "transmits a Reset frame carrying the code, moves to Reset,
zeros the process-data buffers, clears the process-data-sending flag, and
reports the event in the sync status" (spec section 4.5). -/
def fsoemaster_local_reset (m : fsoemaster_inst) (reason : Nat) : fsoemaster_syncresult :=
  { inst := { m with
      state := .reset
      process_data_sending_enabled := false
      is_reset_requested := false
      SafeInputs := fsoe_zeros m.inputs_size
      sync_status :=
        { is_process_data_received := false
          reset_event := .by_master
          reset_reason := reason
          current_state := .reset } }
    tx := [{ cmd := .reset, frame_data := [reason] }]
    inputs := fsoe_zeros m.inputs_size }

/-- Modelled from the spec: reception of a Reset frame from the slave; the
event is reported as BySlave with the received code and the master restarts
negotiation at Session with a freshly generated Master Session ID (spec
section 4.5, end-to-end scenario 5). -/
def fsoemaster_peer_reset (m : fsoemaster_inst) (reason : Nat) (gen_sid : Nat) :
    fsoemaster_syncresult :=
  { inst := { m with
      state := .session
      process_data_sending_enabled := false
      is_reset_requested := false
      SessionId := gen_sid
      SafeInputs := fsoe_zeros m.inputs_size
      sync_status :=
        { is_process_data_received := false
          reset_event := .by_slave
          reset_reason := reason
          current_state := .session } }
    tx := [{ cmd := .session, frame_data := fsoe_uint16_bytes gen_sid }]
    inputs := fsoe_zeros m.inputs_size }

/-- Modelled from the spec: "Reset -> Session: unconditional at startup or
after any reset (sends Reset(LocalReset) first)"; the Master Session ID is
generated via the host callback on entering Session (spec section 4.5). -/
def fsoemaster_startup (m : fsoemaster_inst) (gen_sid : Nat) : fsoemaster_syncresult :=
  { inst := { m with
      state := .session
      process_data_sending_enabled := false
      is_reset_requested := false
      SessionId := gen_sid
      SafeInputs := fsoe_zeros m.inputs_size
      sync_status :=
        { is_process_data_received := false
          reset_event := .by_master
          reset_reason := FSOEMASTER_RESETREASON_LOCAL_RESET
          current_state := .session } }
    tx := [{ cmd := .reset, frame_data := [FSOEMASTER_RESETREASON_LOCAL_RESET] }]
    inputs := fsoe_zeros m.inputs_size }

/-- Modelled from the spec: the frame the master emits in its current state --
in Data state, ProcessData with the outputs when the process-data-sending
flag is set, else FailSafeData with zeros (spec section 4.5 item 5); in the
handshake states, the pending handshake frame. -/
def fsoemaster_tx_for_state (m : fsoemaster_inst) (outputs : List Nat) : List fsoetx :=
  match m.state with
  | .reset => []
  | .session => [{ cmd := .session, frame_data := fsoe_uint16_bytes m.SessionId }]
  | .connection => [{ cmd := .connection, frame_data := m.ConnData }]
  | .parameter => [{ cmd := .parameter, frame_data := m.SafePara }]
  | .data =>
    if m.process_data_sending_enabled then [{ cmd := .processdata, frame_data := outputs }]
    else [{ cmd := .failsafedata, frame_data := fsoe_zeros m.outputs_size }]

/-- Modelled from the spec: one call to fsoemaster_sync_with_slave
(fsoemaster.c is not in the repository).  In order: a host reset request
forces a Reset frame with reason 0 (fsoemaster.h lines 1078-1090); from Reset
state the master sends Reset(LocalReset) and enters Session; watchdog expiry
and the three frame-validation failures force a reset with the corresponding
code; a Reset frame from the slave is reported BySlave; otherwise the frame
advances the handshake per spec section 4.5, a wrong-command frame resets with
INVALID_CMD, and an echo mismatch in Connection/Parameter resets with
INVALID_DATA. -/
def fsoemaster_sync_with_slave (m : fsoemaster_inst) (wd_expired : Bool)
    (rx : fsoemaster_rx) (outputs : List Nat) (gen_sid : Nat) : fsoemaster_syncresult :=
  if m.is_reset_requested then
    fsoemaster_local_reset m FSOEMASTER_RESETREASON_LOCAL_RESET
  else if m.state = .reset then
    fsoemaster_startup m gen_sid
  else if wd_expired then
    fsoemaster_local_reset m FSOEMASTER_RESETREASON_WD_EXPIRED
  else
    match rx with
    | .bad_crc => fsoemaster_local_reset m FSOEMASTER_RESETREASON_INVALID_CRC
    | .bad_connid => fsoemaster_local_reset m FSOEMASTER_RESETREASON_INVALID_CONNID
    | .unknown_cmd => fsoemaster_local_reset m FSOEMASTER_RESETREASON_UNKNOWN_CMD
    | .no_frame =>
      { inst := { m with sync_status :=
          { is_process_data_received := m.sync_status.is_process_data_received
            reset_event := .none
            reset_reason := 0
            current_state := m.state } }
        tx := fsoemaster_tx_for_state m outputs
        inputs := m.SafeInputs }
    | .frame c fdata =>
      if c = .reset then fsoemaster_peer_reset m (fdata.getD 0 0) gen_sid
      else
        match m.state with
        | .reset => fsoemaster_startup m gen_sid
        | .session =>
          if c = .session then
            { inst := { m with
                state := .connection
                slave_session_id := fsoe_uint16_le (fdata.getD 0 0) (fdata.getD 1 0)
                sync_status :=
                  { is_process_data_received := false
                    reset_event := .none
                    reset_reason := 0
                    current_state := .connection } }
              tx := [{ cmd := .connection, frame_data := m.ConnData }]
              inputs := m.SafeInputs }
          else fsoemaster_local_reset m FSOEMASTER_RESETREASON_INVALID_CMD
        | .connection =>
          if c = .connection then
            if fdata = m.ConnData then
              { inst := { m with
                  state := .parameter
                  sync_status :=
                    { is_process_data_received := false
                      reset_event := .none
                      reset_reason := 0
                      current_state := .parameter } }
                tx := [{ cmd := .parameter, frame_data := m.SafePara }]
                inputs := m.SafeInputs }
            else fsoemaster_local_reset m FSOEMASTER_RESETREASON_INVALID_DATA
          else fsoemaster_local_reset m FSOEMASTER_RESETREASON_INVALID_CMD
        | .parameter =>
          if c = .parameter then
            if fdata = m.SafePara then
              { inst := { m with
                  state := .data
                  sync_status :=
                    { is_process_data_received := false
                      reset_event := .none
                      reset_reason := 0
                      current_state := .data } }
                tx := fsoemaster_tx_for_state { m with state := .data } outputs
                inputs := m.SafeInputs }
            else fsoemaster_local_reset m FSOEMASTER_RESETREASON_INVALID_DATA
          else fsoemaster_local_reset m FSOEMASTER_RESETREASON_INVALID_CMD
        | .data =>
          if c = .processdata then
            { inst := { m with
                SafeInputs := fdata
                sync_status :=
                  { is_process_data_received := true
                    reset_event := .none
                    reset_reason := 0
                    current_state := .data } }
              tx := fsoemaster_tx_for_state m outputs
              inputs := fdata }
          else if c = .failsafedata then
            { inst := { m with
                SafeInputs := fsoe_zeros m.inputs_size
                sync_status :=
                  { is_process_data_received := false
                    reset_event := .none
                    reset_reason := 0
                    current_state := .data } }
              tx := fsoemaster_tx_for_state m outputs
              inputs := fsoe_zeros m.inputs_size }
          else fsoemaster_local_reset m FSOEMASTER_RESETREASON_INVALID_CMD

/-- Modelled from the spec: the master instance as left by fsoemaster_init --
Reset state, cleared flags, fail-safe (all-zero) inputs, ConnData and
SafePara encoded from the configuration. -/
def fsoemaster_initial (inputs_size outputs_size : Nat)
    (conn_data safe_para : List Nat) : fsoemaster_inst :=
  { state := .reset
    process_data_sending_enabled := false
    is_reset_requested := false
    SessionId := 0
    slave_session_id := 0
    ConnData := conn_data
    SafePara := safe_para
    SafeInputs := fsoe_zeros inputs_size
    inputs_size := inputs_size
    outputs_size := outputs_size
    sync_status :=
      { is_process_data_received := false
        reset_event := .none
        reset_reason := 0
        current_state := .reset } }

/-- Modelled from the spec: core effect of fsoemaster_set_reset_request_flag
(fsoemaster.h lines 1078-1124). -/
def fsoemaster_set_reset_request_flag (m : fsoemaster_inst) : fsoemaster_inst :=
  { m with is_reset_requested := true }

/-- Inputs of one master sync cycle, for describing whole executions. -/
structure fsoemaster_syncargs where
  wd_expired : Bool
  rx : fsoemaster_rx
  outputs : List Nat
  gen_sid : Nat
deriving DecidableEq

/-- Execution of the master state machine over a list of sync-cycle inputs,
collecting every frame sent. -/
def fsoemaster_run (m : fsoemaster_inst) :
    List fsoemaster_syncargs → fsoemaster_inst × List fsoetx
  | [] => (m, [])
  | a :: rest =>
    let r := fsoemaster_sync_with_slave m a.wd_expired a.rx a.outputs a.gen_sid
    let rest_run := fsoemaster_run r.inst rest
    (rest_run.1, r.tx ++ rest_run.2)

/-- Reason codes of all Reset frames in a list of sent frames. -/
def fsoe_reset_reasons (txs : List fsoetx) : List Nat :=
  (txs.filter (fun t => decide (t.cmd = fsoecmd.reset))).map (fun t => t.frame_data.getD 0 0)

/-- Reset events from `fsoeslave_resetevent_t` (fsoeslave.h lines 363-376). -/
inductive fsoeslave_resetevent
  | none
  | by_master
  | by_slave
deriving DecidableEq

/-- Sync status from `fsoeslave_syncstatus_t` (fsoeslave.h lines 383-425). -/
structure fsoeslave_syncstatus where
  is_process_data_received : Bool
  reset_event : fsoeslave_resetevent
  reset_reason : Nat
  current_state : fsoestate
deriving DecidableEq

/-- Slave state-machine instance, the modelled fields of `fsoeslave_t`
(fsoeslave.h lines 510-584). -/
structure fsoeslave_inst where
  state : fsoestate
  process_data_sending_enabled : Bool
  is_reset_requested : Bool
  SessionId : Nat
  master_session_id : Nat
  SlaveAddress : Nat
  expected_app_para_size : Nat
  SafeOutputs : List Nat
  outputs_size : Nat
  inputs_size : Nat
  sync_status : fsoeslave_syncstatus
deriving DecidableEq

/-- Outcome of the black-channel recv plus frame validation for one slave
sync cycle. -/
inductive fsoeslave_rx
  | no_frame
  | frame (cmd : fsoecmd) (frame_data : List Nat)
  | bad_crc
  | bad_connid
  | unknown_cmd
deriving DecidableEq

/-- Result of one slave sync call: the updated instance, the frames passed to
fsoeapp_send, and the outputs buffer handed back to the host. -/
structure fsoeslave_syncresult where
  inst : fsoeslave_inst
  tx : List fsoetx
  outputs : List Nat
deriving DecidableEq

/-- Return values allowed from the host callback fsoeapp_verify_parameters
(fsoeapp.h lines 68-77 and 306-315): OK (0), BAD_TIMOUT (9),
BAD_APP_PARAMETER (11), or a device-specific code in 0x80-0xFF. -/
def fsoeapp_verify_result_valid (r : Nat) : Bool :=
  r == 0 || r == 9 || r == 11 || (decide (128 ≤ r) && decide (r ≤ 255))

/-- Modelled from the spec: a reset initiated by the slave state machine or
application -- a Reset frame carrying the code is sent to the master, the
state machine moves to Reset, the process-data buffer is zeroed, the
process-data-sending flag is cleared and the event is reported BySlave
(spec section 4.5). -/
def fsoeslave_local_reset (s : fsoeslave_inst) (reason : Nat) : fsoeslave_syncresult :=
  { inst := { s with
      state := .reset
      process_data_sending_enabled := false
      is_reset_requested := false
      SafeOutputs := fsoe_zeros s.outputs_size
      sync_status :=
        { is_process_data_received := false
          reset_event := .by_slave
          reset_reason := reason
          current_state := .reset } }
    tx := [{ cmd := .reset, frame_data := [reason] }]
    outputs := fsoe_zeros s.outputs_size }

/-- Modelled from the spec: reception of a Reset frame from the master; the
slave reports the event ByMaster with the received code, moves to Reset and
awaits the master's restart (fsoeslave.h lines 405-414). -/
def fsoeslave_peer_reset (s : fsoeslave_inst) (reason : Nat) : fsoeslave_syncresult :=
  { inst := { s with
      state := .reset
      process_data_sending_enabled := false
      is_reset_requested := false
      SafeOutputs := fsoe_zeros s.outputs_size
      sync_status :=
        { is_process_data_received := false
          reset_event := .by_master
          reset_reason := reason
          current_state := .reset } }
    tx := []
    outputs := fsoe_zeros s.outputs_size }

/-- Modelled from the spec: the Data-state frame sent by the slave --
ProcessData carrying the inputs when the process-data-sending flag is set,
else FailSafeData with zeros (spec sections 4.5). -/
def fsoeslave_data_tx (s : fsoeslave_inst) (inputs : List Nat) : List fsoetx :=
  if s.process_data_sending_enabled then [{ cmd := .processdata, frame_data := inputs }]
  else [{ cmd := .failsafedata, frame_data := fsoe_zeros s.inputs_size }]

/-- Modelled from the spec: one call to fsoeslave_sync_with_master
(fsoeslave.c is not in the repository).  In order: a host reset request
forces a Reset frame with reason 0 (fsoeslave.h lines 1002-1014); watchdog
expiry and the three frame-validation failures force a reset with the
corresponding code; a Reset frame from the master is reported ByMaster; a
Session frame (re)starts the handshake; a Connection frame is checked
against the configured slave address -- mismatch resets with
INVALID_ADDRESS (6); a Parameter frame is checked for communication- and
application-parameter sizes (reasons 8 and 10) and then against the host's
fsoeapp_verify_parameters result; Data-state frames deliver fail-safe or
process data; any frame of a command not allowed in the current state resets
with INVALID_CMD. -/
def fsoeslave_sync_with_master (s : fsoeslave_inst) (wd_expired : Bool)
    (rx : fsoeslave_rx) (inputs : List Nat) (verify_result : Nat) (gen_sid : Nat) :
    fsoeslave_syncresult :=
  if s.is_reset_requested then
    fsoeslave_local_reset s FSOESLAVE_RESETREASON_LOCAL_RESET
  else if wd_expired then
    fsoeslave_local_reset s FSOESLAVE_RESETREASON_WD_EXPIRED
  else
    match rx with
    | .bad_crc => fsoeslave_local_reset s FSOESLAVE_RESETREASON_INVALID_CRC
    | .bad_connid => fsoeslave_local_reset s FSOESLAVE_RESETREASON_INVALID_CONNID
    | .unknown_cmd => fsoeslave_local_reset s FSOESLAVE_RESETREASON_UNKNOWN_CMD
    | .no_frame =>
      { inst := { s with sync_status :=
          { is_process_data_received := s.sync_status.is_process_data_received
            reset_event := .none
            reset_reason := 0
            current_state := s.state } }
        tx := []
        outputs := s.SafeOutputs }
    | .frame c fdata =>
      if c = .reset then fsoeslave_peer_reset s (fdata.getD 0 0)
      else if c = .session then
        match s.state with
        | .reset | .session =>
          { inst := { s with
              state := .session
              SessionId := gen_sid
              master_session_id := fsoe_uint16_le (fdata.getD 0 0) (fdata.getD 1 0)
              sync_status :=
                { is_process_data_received := false
                  reset_event := .none
                  reset_reason := 0
                  current_state := .session } }
            tx := [{ cmd := .session, frame_data := fsoe_uint16_bytes gen_sid }]
            outputs := s.SafeOutputs }
        | _ => fsoeslave_local_reset s FSOESLAVE_RESETREASON_INVALID_CMD
      else if c = .connection then
        match s.state with
        | .session | .connection =>
          if fsoeframe_conndata_slave_address fdata = s.SlaveAddress then
            { inst := { s with
                state := .connection
                sync_status :=
                  { is_process_data_received := false
                    reset_event := .none
                    reset_reason := 0
                    current_state := .connection } }
              tx := [{ cmd := .connection, frame_data := fdata }]
              outputs := s.SafeOutputs }
          else fsoeslave_local_reset s FSOESLAVE_RESETREASON_INVALID_ADDRESS
        | _ => fsoeslave_local_reset s FSOESLAVE_RESETREASON_INVALID_CMD
      else if c = .parameter then
        match s.state with
        | .connection | .parameter =>
          if fsoeframe_safepara_watchdog_size fdata ≠ 2 then
            fsoeslave_local_reset s FSOESLAVE_RESETREASON_INVALID_COMPARALEN
          else if fsoeframe_safepara_app_size fdata ≠ s.expected_app_para_size then
            fsoeslave_local_reset s FSOESLAVE_RESETREASON_INVALID_USERPARALEN
          else if verify_result ≠ 0 then
            fsoeslave_local_reset s verify_result
          else
            { inst := { s with
                state := .parameter
                sync_status :=
                  { is_process_data_received := false
                    reset_event := .none
                    reset_reason := 0
                    current_state := .parameter } }
              tx := [{ cmd := .parameter, frame_data := fdata }]
              outputs := s.SafeOutputs }
        | _ => fsoeslave_local_reset s FSOESLAVE_RESETREASON_INVALID_CMD
      else if c = .processdata then
        match s.state with
        | .parameter | .data =>
          { inst := { s with
              state := .data
              SafeOutputs := fdata
              sync_status :=
                { is_process_data_received := true
                  reset_event := .none
                  reset_reason := 0
                  current_state := .data } }
            tx := fsoeslave_data_tx s inputs
            outputs := fdata }
        | _ => fsoeslave_local_reset s FSOESLAVE_RESETREASON_INVALID_CMD
      else
        match s.state with
        | .parameter | .data =>
          { inst := { s with
              state := .data
              SafeOutputs := fsoe_zeros s.outputs_size
              sync_status :=
                { is_process_data_received := false
                  reset_event := .none
                  reset_reason := 0
                  current_state := .data } }
            tx := fsoeslave_data_tx s inputs
            outputs := fsoe_zeros s.outputs_size }
        | _ => fsoeslave_local_reset s FSOESLAVE_RESETREASON_INVALID_CMD

/-- Modelled from the spec: the slave instance as left by fsoeslave_init --
Reset state, cleared flags, fail-safe (all-zero) outputs. -/
def fsoeslave_initial (inputs_size outputs_size slave_address app_para_size : Nat) :
    fsoeslave_inst :=
  { state := .reset
    process_data_sending_enabled := false
    is_reset_requested := false
    SessionId := 0
    master_session_id := 0
    SlaveAddress := slave_address
    expected_app_para_size := app_para_size
    SafeOutputs := fsoe_zeros outputs_size
    outputs_size := outputs_size
    inputs_size := inputs_size
    sync_status :=
      { is_process_data_received := false
        reset_event := .none
        reset_reason := 0
        current_state := .reset } }

/-- Modelled from the spec: core effect of fsoeslave_set_reset_request_flag
(fsoeslave.h lines 1002-1048). -/
def fsoeslave_set_reset_request_flag (s : fsoeslave_inst) : fsoeslave_inst :=
  { s with is_reset_requested := true }

/-- Inputs of one slave sync cycle, for describing whole executions. -/
structure fsoeslave_syncargs where
  wd_expired : Bool
  rx : fsoeslave_rx
  inputs : List Nat
  verify_result : Nat
  gen_sid : Nat
deriving DecidableEq

/-- Execution of the slave state machine over a list of sync-cycle inputs. -/
def fsoeslave_run (s : fsoeslave_inst) :
    List fsoeslave_syncargs → fsoeslave_inst × List fsoetx
  | [] => (s, [])
  | a :: rest =>
    let r := fsoeslave_sync_with_master s a.wd_expired a.rx a.inputs a.verify_result a.gen_sid
    let rest_run := fsoeslave_run r.inst rest
    (rest_run.1, r.tx ++ rest_run.2)

/-- Every master sync call either reports no reset event or leaves the
process-data-sending flag cleared. -/
lemma fsoemaster_sync_event_or_flag (m : fsoemaster_inst) (wd : Bool)
    (rx : fsoemaster_rx) (outs : List Nat) (sid : Nat) :
    (fsoemaster_sync_with_slave m wd rx outs sid).inst.sync_status.reset_event =
      fsoemaster_resetevent.none ∨
    (fsoemaster_sync_with_slave m wd rx outs sid).inst.process_data_sending_enabled = false := by
  obtain ⟨mst, mpd, mrq, msid1, mssid, mcd, msp, msi, misz, mosz, mss⟩ := m
  unfold fsoemaster_sync_with_slave
  cases mst <;> cases rx <;>
    simp only [fsoemaster_local_reset, fsoemaster_startup, fsoemaster_peer_reset,
      fsoemaster_tx_for_state] <;>
    split_ifs <;>
    first | (left; rfl) | (right; rfl)

set_option maxHeartbeats 2000000 in
/-- Every slave sync call either reports no reset event or leaves the
process-data-sending flag cleared. -/
lemma fsoeslave_sync_event_or_flag (s : fsoeslave_inst) (wd : Bool)
    (rx : fsoeslave_rx) (ins : List Nat) (vr sid : Nat) :
    (fsoeslave_sync_with_master s wd rx ins vr sid).inst.sync_status.reset_event =
      fsoeslave_resetevent.none ∨
    (fsoeslave_sync_with_master s wd rx ins vr sid).inst.process_data_sending_enabled = false := by
  obtain ⟨sst, spd, srq, ssid1, smid, sad, sap, sso, sosz, sisz, sss⟩ := s
  unfold fsoeslave_sync_with_master
  dsimp only
  repeat' split
  all_goals first | (left; rfl) | (right; rfl)

/-- Claim C3: for every master or slave instance and every sync call whose
sync status reports a reset event (reset_event different from None), the
process-data-sending enable flag is false after that call. -/
theorem C3_reset_event_clears_pd_flag
    (m : fsoemaster_inst) (mwd : Bool) (mrx : fsoemaster_rx) (mouts : List Nat) (msid : Nat)
    (s : fsoeslave_inst) (swd : Bool) (srx : fsoeslave_rx) (sins : List Nat) (svr ssid : Nat) :
    ((fsoemaster_sync_with_slave m mwd mrx mouts msid).inst.sync_status.reset_event ≠
        fsoemaster_resetevent.none →
      (fsoemaster_sync_with_slave m mwd mrx mouts msid).inst.process_data_sending_enabled =
        false) ∧
    ((fsoeslave_sync_with_master s swd srx sins svr ssid).inst.sync_status.reset_event ≠
        fsoeslave_resetevent.none →
      (fsoeslave_sync_with_master s swd srx sins svr ssid).inst.process_data_sending_enabled =
        false) := by
  constructor
  · intro h
    rcases fsoemaster_sync_event_or_flag m mwd mrx mouts msid with he | hf
    · exact absurd he h
    · exact hf
  · intro h
    rcases fsoeslave_sync_event_or_flag s swd srx sins svr ssid with he | hf
    · exact absurd he h
    · exact hf

/-- Witness for C3: a concrete freshly initialised master (whose first sync
reports the startup reset ByMaster) and a concrete slave with the reset
request flag set. -/
theorem C3_reset_event_clears_pd_flag_witness :
    ((fsoemaster_sync_with_slave (fsoemaster_initial 2 2 [8, 0, 4, 3] [2, 0, 100, 0, 0, 0])
        false fsoemaster_rx.no_frame [0, 0] 7).inst.sync_status.reset_event ≠
      fsoemaster_resetevent.none) ∧
    ((fsoeslave_sync_with_master (fsoeslave_set_reset_request_flag (fsoeslave_initial 2 2 772 0))
        false fsoeslave_rx.no_frame [0, 0] 0 9).inst.sync_status.reset_event ≠
      fsoeslave_resetevent.none) ∧
    (fsoemaster_sync_with_slave (fsoemaster_initial 2 2 [8, 0, 4, 3] [2, 0, 100, 0, 0, 0])
        false fsoemaster_rx.no_frame [0, 0] 7).inst.process_data_sending_enabled = false ∧
    (fsoeslave_sync_with_master (fsoeslave_set_reset_request_flag (fsoeslave_initial 2 2 772 0))
        false fsoeslave_rx.no_frame [0, 0] 0 9).inst.process_data_sending_enabled = false :=
  ⟨by decide, by decide,
    (C3_reset_event_clears_pd_flag
        (fsoemaster_initial 2 2 [8, 0, 4, 3] [2, 0, 100, 0, 0, 0]) false
        fsoemaster_rx.no_frame [0, 0] 7
        (fsoeslave_set_reset_request_flag (fsoeslave_initial 2 2 772 0)) false
        fsoeslave_rx.no_frame [0, 0] 0 9).1 (by decide),
    (C3_reset_event_clears_pd_flag
        (fsoemaster_initial 2 2 [8, 0, 4, 3] [2, 0, 100, 0, 0, 0]) false
        fsoemaster_rx.no_frame [0, 0] 7
        (fsoeslave_set_reset_request_flag (fsoeslave_initial 2 2 772 0)) false
        fsoeslave_rx.no_frame [0, 0] 0 9).2 (by decide)⟩

/-- Claim C5: after the host sets the reset request flag, the next sync call
(for the master as well as for the slave) sends a Reset frame carrying
reason 0 (LOCAL_RESET), moves the state machine to Reset state and reports
the reset event with reset_reason 0 in the sync status, in any state and for
any cycle inputs. -/
theorem C5_reset_request_forces_reset
    (m : fsoemaster_inst) (mwd : Bool) (mrx : fsoemaster_rx) (mouts : List Nat) (msid : Nat)
    (s : fsoeslave_inst) (swd : Bool) (srx : fsoeslave_rx) (sins : List Nat) (svr ssid : Nat) :
    ((fsoemaster_sync_with_slave (fsoemaster_set_reset_request_flag m) mwd mrx mouts msid).tx =
        [{ cmd := fsoecmd.reset, frame_data := [FSOEMASTER_RESETREASON_LOCAL_RESET] }] ∧
      (fsoemaster_sync_with_slave (fsoemaster_set_reset_request_flag m) mwd mrx mouts
          msid).inst.state = fsoestate.reset ∧
      (fsoemaster_sync_with_slave (fsoemaster_set_reset_request_flag m) mwd mrx mouts
          msid).inst.sync_status.reset_event = fsoemaster_resetevent.by_master ∧
      (fsoemaster_sync_with_slave (fsoemaster_set_reset_request_flag m) mwd mrx mouts
          msid).inst.sync_status.reset_reason = FSOEMASTER_RESETREASON_LOCAL_RESET) ∧
    ((fsoeslave_sync_with_master (fsoeslave_set_reset_request_flag s) swd srx sins svr ssid).tx =
        [{ cmd := fsoecmd.reset, frame_data := [FSOESLAVE_RESETREASON_LOCAL_RESET] }] ∧
      (fsoeslave_sync_with_master (fsoeslave_set_reset_request_flag s) swd srx sins svr
          ssid).inst.state = fsoestate.reset ∧
      (fsoeslave_sync_with_master (fsoeslave_set_reset_request_flag s) swd srx sins svr
          ssid).inst.sync_status.reset_event = fsoeslave_resetevent.by_slave ∧
      (fsoeslave_sync_with_master (fsoeslave_set_reset_request_flag s) swd srx sins svr
          ssid).inst.sync_status.reset_reason = FSOESLAVE_RESETREASON_LOCAL_RESET) := by
  constructor <;>
    exact ⟨rfl, rfl, rfl, rfl⟩

/-- All-zero (fail-safe) byte buffer predicate. -/
def fsoe_all_zero (l : List Nat) : Bool := l.all (fun b => b == 0)

/-- A buffer of zeros is all zero. -/
lemma fsoe_zeros_all_zero (n : Nat) : fsoe_all_zero (fsoe_zeros n) = true := by
  simp only [fsoe_all_zero, fsoe_zeros, List.all_eq_true]
  intro x hx
  simp [List.eq_of_mem_replicate hx]

/-- Fail-safe invariant of the master instance: whenever the sync status does
not report valid received process data, the SafeInputs buffer is all zeros;
and outside Data state no process data is ever reported received. -/
def fsoemaster_failsafe_inv (m : fsoemaster_inst) : Prop :=
  (m.sync_status.is_process_data_received = false → fsoe_all_zero m.SafeInputs = true) ∧
  (m.state ≠ fsoestate.data → m.sync_status.is_process_data_received = false)

/-- Fail-safe invariant of the slave instance, mirroring the master's. -/
def fsoeslave_failsafe_inv (s : fsoeslave_inst) : Prop :=
  (s.sync_status.is_process_data_received = false → fsoe_all_zero s.SafeOutputs = true) ∧
  (s.state ≠ fsoestate.data → s.sync_status.is_process_data_received = false)

/-- The inputs buffer a master sync call hands to the host is the instance's
SafeInputs buffer. -/
lemma fsoemaster_sync_inputs_eq (m : fsoemaster_inst) (wd : Bool)
    (rx : fsoemaster_rx) (outs : List Nat) (sid : Nat) :
    (fsoemaster_sync_with_slave m wd rx outs sid).inputs =
      (fsoemaster_sync_with_slave m wd rx outs sid).inst.SafeInputs := by
  obtain ⟨mst, mpd, mrq, msid1, mssid, mcd, msp, msi, misz, mosz, mss⟩ := m
  unfold fsoemaster_sync_with_slave
  dsimp only
  repeat' split
  all_goals rfl

/-- The outputs buffer a slave sync call hands to the host is the instance's
SafeOutputs buffer. -/
lemma fsoeslave_sync_outputs_eq (s : fsoeslave_inst) (wd : Bool)
    (rx : fsoeslave_rx) (ins : List Nat) (vr sid : Nat) :
    (fsoeslave_sync_with_master s wd rx ins vr sid).outputs =
      (fsoeslave_sync_with_master s wd rx ins vr sid).inst.SafeOutputs := by
  obtain ⟨sst, spd, srq, ssid1, smid, sad, sap, sso, sosz, sisz, sss⟩ := s
  unfold fsoeslave_sync_with_master
  dsimp only
  repeat' split
  all_goals rfl

set_option maxHeartbeats 1000000 in
/-- One master sync call preserves the fail-safe invariant. -/
lemma fsoemaster_sync_preserves_inv (m : fsoemaster_inst) (wd : Bool)
    (rx : fsoemaster_rx) (outs : List Nat) (sid : Nat)
    (h : fsoemaster_failsafe_inv m) :
    fsoemaster_failsafe_inv (fsoemaster_sync_with_slave m wd rx outs sid).inst := by
  obtain ⟨h1, h2⟩ := h
  obtain ⟨mst, mpd, mrq, msid1, mssid, mcd, msp, msi, misz, mosz, mss⟩ := m
  simp only [fsoemaster_failsafe_inv] at *
  unfold fsoemaster_sync_with_slave
  dsimp only
  repeat' split
  all_goals try dsimp only
  all_goals
    refine ⟨fun hf => ?_, fun hs => ?_⟩ <;>
    first
      | exact fsoe_zeros_all_zero _
      | rfl
      | exact h1 hf
      | exact h2 hs
      | exact h1 (h2 (by decide))
      | exact absurd hf (by decide)
      | exact absurd rfl hs

set_option maxHeartbeats 1000000 in
/-- One slave sync call preserves the fail-safe invariant. -/
lemma fsoeslave_sync_preserves_inv (s : fsoeslave_inst) (wd : Bool)
    (rx : fsoeslave_rx) (ins : List Nat) (vr sid : Nat)
    (h : fsoeslave_failsafe_inv s) :
    fsoeslave_failsafe_inv (fsoeslave_sync_with_master s wd rx ins vr sid).inst := by
  obtain ⟨h1, h2⟩ := h
  obtain ⟨sst, spd, srq, ssid1, smid, sad, sap, sso, sosz, sisz, sss⟩ := s
  simp only [fsoeslave_failsafe_inv] at *
  unfold fsoeslave_sync_with_master
  dsimp only
  repeat' split
  all_goals try dsimp only
  all_goals
    refine ⟨fun hf => ?_, fun hs => ?_⟩ <;>
    first
      | exact fsoe_zeros_all_zero _
      | rfl
      | exact h1 hf
      | exact h2 hs
      | exact h1 (h2 (by decide))
      | exact absurd hf (by decide)
      | exact absurd rfl hs

/-- The initial (freshly initialised) master instance satisfies the
fail-safe invariant. -/
lemma fsoemaster_initial_inv (isz osz : Nat) (cd sp : List Nat) :
    fsoemaster_failsafe_inv (fsoemaster_initial isz osz cd sp) :=
  ⟨fun _ => fsoe_zeros_all_zero _, fun _ => rfl⟩

/-- The initial (freshly initialised) slave instance satisfies the
fail-safe invariant. -/
lemma fsoeslave_initial_inv (isz osz sa ap : Nat) :
    fsoeslave_failsafe_inv (fsoeslave_initial isz osz sa ap) :=
  ⟨fun _ => fsoe_zeros_all_zero _, fun _ => rfl⟩

/-- Any master execution preserves the fail-safe invariant. -/
lemma fsoemaster_run_preserves_inv (trace : List fsoemaster_syncargs)
    (m : fsoemaster_inst) (h : fsoemaster_failsafe_inv m) :
    fsoemaster_failsafe_inv (fsoemaster_run m trace).1 := by
  induction trace generalizing m with
  | nil => exact h
  | cons a rest ih =>
    exact ih _ (fsoemaster_sync_preserves_inv m a.wd_expired a.rx a.outputs a.gen_sid h)

/-- Any slave execution preserves the fail-safe invariant. -/
lemma fsoeslave_run_preserves_inv (trace : List fsoeslave_syncargs)
    (s : fsoeslave_inst) (h : fsoeslave_failsafe_inv s) :
    fsoeslave_failsafe_inv (fsoeslave_run s trace).1 := by
  induction trace generalizing s with
  | nil => exact h
  | cons a rest ih =>
    exact ih _ (fsoeslave_sync_preserves_inv s a.wd_expired a.rx a.inputs a.verify_result a.gen_sid h)

/-- Claim C4: for every sync call of a reachable master or slave instance
whose resulting sync status has is_process_data_received = false -- in
particular after any error was detected and the machine moved to Reset --
the received-process-data buffer handed to the host (inputs for the master,
outputs for the slave) contains only zero bytes. -/
theorem C4_no_process_data_means_zeroed_buffer
    (misz mosz : Nat) (mcd msp : List Nat) (mtrace : List fsoemaster_syncargs)
    (mwd : Bool) (mrx : fsoemaster_rx) (mouts : List Nat) (msid : Nat)
    (sisz sosz saddr sapp : Nat) (strace : List fsoeslave_syncargs)
    (swd : Bool) (srx : fsoeslave_rx) (sins : List Nat) (svr ssid : Nat) :
    ((fsoemaster_sync_with_slave
        (fsoemaster_run (fsoemaster_initial misz mosz mcd msp) mtrace).1
        mwd mrx mouts msid).inst.sync_status.is_process_data_received = false →
      fsoe_all_zero (fsoemaster_sync_with_slave
        (fsoemaster_run (fsoemaster_initial misz mosz mcd msp) mtrace).1
        mwd mrx mouts msid).inputs = true) ∧
    ((fsoeslave_sync_with_master
        (fsoeslave_run (fsoeslave_initial sisz sosz saddr sapp) strace).1
        swd srx sins svr ssid).inst.sync_status.is_process_data_received = false →
      fsoe_all_zero (fsoeslave_sync_with_master
        (fsoeslave_run (fsoeslave_initial sisz sosz saddr sapp) strace).1
        swd srx sins svr ssid).outputs = true) := by
  constructor
  · intro hf
    rw [fsoemaster_sync_inputs_eq]
    exact (fsoemaster_sync_preserves_inv _ mwd mrx mouts msid
      (fsoemaster_run_preserves_inv mtrace _
        (fsoemaster_initial_inv misz mosz mcd msp))).1 hf
  · intro hf
    rw [fsoeslave_sync_outputs_eq]
    exact (fsoeslave_sync_preserves_inv _ swd srx sins svr ssid
      (fsoeslave_run_preserves_inv strace _
        (fsoeslave_initial_inv sisz sosz saddr sapp))).1 hf

/-- Witness for C4: a freshly initialised master and slave, one empty
execution prefix, and a cycle that receives a FailSafeData frame in Reset
state (master reports no process data; buffers are zero). -/
theorem C4_no_process_data_means_zeroed_buffer_witness :
    ((fsoemaster_sync_with_slave
        (fsoemaster_run (fsoemaster_initial 2 2 [8, 0, 4, 3] [2, 0, 100, 0, 0, 0]) []).1
        false fsoemaster_rx.no_frame [1, 2] 5).inst.sync_status.is_process_data_received =
      false) ∧
    ((fsoeslave_sync_with_master
        (fsoeslave_run (fsoeslave_initial 2 2 772 0) []).1
        false fsoeslave_rx.no_frame [3, 4] 0 6).inst.sync_status.is_process_data_received =
      false) ∧
    fsoe_all_zero (fsoemaster_sync_with_slave
        (fsoemaster_run (fsoemaster_initial 2 2 [8, 0, 4, 3] [2, 0, 100, 0, 0, 0]) []).1
        false fsoemaster_rx.no_frame [1, 2] 5).inputs = true ∧
    fsoe_all_zero (fsoeslave_sync_with_master
        (fsoeslave_run (fsoeslave_initial 2 2 772 0) []).1
        false fsoeslave_rx.no_frame [3, 4] 0 6).outputs = true :=
  ⟨by decide, by decide,
    (C4_no_process_data_means_zeroed_buffer 2 2 [8, 0, 4, 3] [2, 0, 100, 0, 0, 0] []
      false fsoemaster_rx.no_frame [1, 2] 5
      2 2 772 0 [] false fsoeslave_rx.no_frame [3, 4] 0 6).1 (by decide),
    (C4_no_process_data_means_zeroed_buffer 2 2 [8, 0, 4, 3] [2, 0, 100, 0, 0, 0] []
      false fsoemaster_rx.no_frame [1, 2] 5
      2 2 772 0 [] false fsoeslave_rx.no_frame [3, 4] 0 6).2 (by decide)⟩

/-- Splitting reset-reason extraction over concatenated frame lists. -/
lemma fsoe_reset_reasons_append (l1 l2 : List fsoetx) :
    fsoe_reset_reasons (l1 ++ l2) = fsoe_reset_reasons l1 ++ fsoe_reset_reasons l2 := by
  simp [fsoe_reset_reasons]

/-- No single master sync call ever sends a Reset frame with reason 6
(INVALID_ADDRESS). -/
lemma fsoemaster_sync_no_invalid_address (m : fsoemaster_inst) (wd : Bool)
    (rx : fsoemaster_rx) (outs : List Nat) (sid : Nat) :
    (fsoe_reset_reasons (fsoemaster_sync_with_slave m wd rx outs sid).tx).all
      (fun r => r != FSOEMASTER_RESETREASON_INVALID_ADDRESS) = true := by
  obtain ⟨mst, mpd, mrq, msid1, mssid, mcd, msp, msi, misz, mosz, mss⟩ := m
  unfold fsoemaster_sync_with_slave fsoemaster_tx_for_state
  dsimp only
  repeat' split
  all_goals rfl

/-- No master execution from an initialised instance ever sends a Reset frame
with reason 6 (INVALID_ADDRESS). -/
lemma fsoemaster_run_no_invalid_address (m : fsoemaster_inst)
    (trace : List fsoemaster_syncargs) :
    (fsoe_reset_reasons (fsoemaster_run m trace).2).all
      (fun r => r != FSOEMASTER_RESETREASON_INVALID_ADDRESS) = true := by
  induction trace generalizing m with
  | nil => rfl
  | cons a rest ih =>
    simp only [fsoemaster_run, fsoe_reset_reasons_append, List.all_append,
      Bool.and_eq_true]
    exact ⟨fsoemaster_sync_no_invalid_address m a.wd_expired a.rx a.outputs a.gen_sid, ih _⟩

set_option maxHeartbeats 2000000 in
/-- A slave sync call sends a Reset frame with reason 6 (INVALID_ADDRESS)
only when the received frame is a Connection frame whose slave address does
not match the configured one (assuming the host's parameter-verification
callback honours its contract of never returning 6). -/
lemma fsoeslave_sync_invalid_address_source (s : fsoeslave_inst) (wd : Bool)
    (rx : fsoeslave_rx) (ins : List Nat) (vr sid : Nat) (hvr : vr ≠ 6)
    (h6 : FSOESLAVE_RESETREASON_INVALID_ADDRESS ∈
      fsoe_reset_reasons (fsoeslave_sync_with_master s wd rx ins vr sid).tx) :
    ∃ fdata, rx = fsoeslave_rx.frame fsoecmd.connection fdata ∧
      fsoeframe_conndata_slave_address fdata ≠ s.SlaveAddress := by
  obtain ⟨sst, spd, srq, ssid1, smid, sad, sap, sso, sosz, sisz, sss⟩ := s
  unfold fsoeslave_sync_with_master fsoeslave_data_tx at h6
  dsimp only at h6
  repeat' split at h6
  all_goals
    first
      | exact absurd (show (6 : Nat) ∈ ([] : List Nat) from h6) (by decide)
      | exact absurd (show (6 : Nat) ∈ ([0] : List Nat) from h6) (by decide)
      | exact absurd (show (6 : Nat) ∈ ([1] : List Nat) from h6) (by decide)
      | exact absurd (show (6 : Nat) ∈ ([2] : List Nat) from h6) (by decide)
      | exact absurd (show (6 : Nat) ∈ ([3] : List Nat) from h6) (by decide)
      | exact absurd (show (6 : Nat) ∈ ([4] : List Nat) from h6) (by decide)
      | exact absurd (show (6 : Nat) ∈ ([5] : List Nat) from h6) (by decide)
      | exact absurd (show (6 : Nat) ∈ ([8] : List Nat) from h6) (by decide)
      | exact absurd (show (6 : Nat) ∈ ([10] : List Nat) from h6) (by decide)
      | (have hv := List.mem_singleton.mp (show (6 : Nat) ∈ [vr] from h6)
         omega)
      | (subst_vars
         exact ⟨_, rfl, by assumption⟩)

/-- The documented fsoeapp_verify_parameters return values never include 6. -/
lemma fsoeapp_verify_result_valid_ne_six (vr : Nat)
    (h : fsoeapp_verify_result_valid vr = true) : vr ≠ 6 := by
  simp only [fsoeapp_verify_result_valid, Bool.or_eq_true, beq_iff_eq,
    Bool.and_eq_true, decide_eq_true_eq] at h
  omega

/-- Claim C8: in every execution of the master state machine no Reset frame
sent by the master carries reason 6 (INVALID_ADDRESS); and the slave state
machine produces that code only on detecting a wrong slave address in a
received Connection frame (given a contract-honouring verify_parameters
callback). -/
theorem C8_invalid_address_only_from_slave :
    (∀ (isz osz : Nat) (cd sp : List Nat) (trace : List fsoemaster_syncargs),
      (fsoe_reset_reasons (fsoemaster_run (fsoemaster_initial isz osz cd sp) trace).2).all
        (fun r => r != FSOEMASTER_RESETREASON_INVALID_ADDRESS) = true) ∧
    (∀ (s : fsoeslave_inst) (wd : Bool) (rx : fsoeslave_rx) (ins : List Nat) (vr sid : Nat),
      fsoeapp_verify_result_valid vr = true →
      FSOESLAVE_RESETREASON_INVALID_ADDRESS ∈
        fsoe_reset_reasons (fsoeslave_sync_with_master s wd rx ins vr sid).tx →
      ∃ fdata, rx = fsoeslave_rx.frame fsoecmd.connection fdata ∧
        fsoeframe_conndata_slave_address fdata ≠ s.SlaveAddress) :=
  ⟨fun isz osz cd sp trace =>
    fsoemaster_run_no_invalid_address (fsoemaster_initial isz osz cd sp) trace,
   fun s wd rx ins vr sid hvr h6 =>
    fsoeslave_sync_invalid_address_source s wd rx ins vr sid
      (fsoeapp_verify_result_valid_ne_six vr hvr) h6⟩

/-- Witness for C8: a slave in Session state receiving a Connection frame
addressed to slave 9 while configured as slave 5 resets with reason 6. -/
theorem C8_invalid_address_only_from_slave_witness :
    fsoeapp_verify_result_valid 0 = true ∧
    FSOESLAVE_RESETREASON_INVALID_ADDRESS ∈
      fsoe_reset_reasons (fsoeslave_sync_with_master
        { fsoeslave_initial 2 2 5 0 with state := fsoestate.session }
        false (fsoeslave_rx.frame fsoecmd.connection [0, 0, 9, 0]) [0, 0] 0 3).tx ∧
    (∃ fdata, fsoeslave_rx.frame fsoecmd.connection [0, 0, 9, 0] =
        fsoeslave_rx.frame fsoecmd.connection fdata ∧
      fsoeframe_conndata_slave_address fdata ≠
        ({ fsoeslave_initial 2 2 5 0 with state := fsoestate.session } :
          fsoeslave_inst).SlaveAddress) :=
  ⟨by decide, by decide,
    C8_invalid_address_only_from_slave.2
      { fsoeslave_initial 2 2 5 0 with state := fsoestate.session }
      false (fsoeslave_rx.frame fsoecmd.connection [0, 0, 9, 0]) [0, 0] 0 3
      (by decide) (by decide)⟩

/-! ## Public API precondition checking (claims C6, C9)

The API function bodies live in fsoemaster.c / fsoeslave.c, which are not in
the repository.  Each public operation is modelled from the uniform contract
stated in every function's header documentation: "Before taking any action,
function will first validate that its preconditions were respected.  If this
was not the case, the function fsoeapp_handle_user_error() will first be
called after which function will exit with status ERROR."  Null pointers are
modelled as `Option`/Bool flags and the callback invocations are collected
in a list. -/

/-- User error kinds passed to fsoeapp_handle_user_error, from
`fsoeapp_usererror_t` (fsoeapp.h lines 87-109). -/
inductive fsoeapp_usererror
  | null_instance
  | uninitialised_instance
  | wrong_instance_state
  | null_argument
  | bad_configuration
deriving DecidableEq

/-- Status code FSOEMASTER_STATUS_OK from fsoemaster.h line 278. -/
def FSOEMASTER_STATUS_OK : Int := 0

/-- Status code FSOEMASTER_STATUS_ERROR from fsoemaster.h line 287. -/
def FSOEMASTER_STATUS_ERROR : Int := -1

/-- Status code FSOESLAVE_STATUS_OK from fsoeslave.h line 279. -/
def FSOESLAVE_STATUS_OK : Int := 0

/-- Status code FSOESLAVE_STATUS_ERROR from fsoeslave.h line 288. -/
def FSOESLAVE_STATUS_ERROR : Int := -1

/-- Modelled from the spec: the magic value stored in an initialised master
instance (fsoemaster.h lines 547-550; the concrete constant lives in
fsoemaster.c and is not in the repository, so an arbitrary value stands in). -/
def FSOEMASTER_MAGIC : Nat := 1179603781

/-- Modelled from the spec: the magic value stored in an initialised slave
instance (fsoeslave.h lines 513-516). -/
def FSOESLAVE_MAGIC : Nat := 1179603782

/-- A master instance as seen through the API: the magic field guarding
initialisation plus the state-machine core. -/
structure fsoemaster_mem where
  magic : Nat
  core : fsoemaster_inst
deriving DecidableEq

/-- A slave instance as seen through the API. -/
structure fsoeslave_mem where
  magic : Nat
  core : fsoeslave_inst
deriving DecidableEq

/-- Observable outcome of one API call: the returned status, the sequence of
fsoeapp_handle_user_error invocations it performed, and the produced value
(none when the operation failed). -/
structure fsoe_api_result (α : Type) where
  status : Int
  user_errors : List fsoeapp_usererror
  ret : Option α
deriving DecidableEq

/-- Modelled from the spec: the uniform precondition-checking prologue of
every API function -- the checks run in order, the first violated one invokes
fsoeapp_handle_user_error with its kind and the function returns ERROR; if
none is violated no callback is invoked, the operation runs and OK is
returned. -/
def fsoe_api_guard {α : Type} (checks : List (Bool × fsoeapp_usererror)) (value : α) :
    fsoe_api_result α :=
  match checks with
  | [] => { status := 0, user_errors := [], ret := some value }
  | (violated, e) :: rest =>
    if violated then { status := -1, user_errors := [e], ret := none }
    else fsoe_api_guard rest value

/-- The error contract of the claim, as a decidable predicate on one API
outcome: either OK with no callback and a produced value, or ERROR with
exactly one callback and no value. -/
def fsoe_api_contract {α : Type} (r : fsoe_api_result α) : Bool :=
  (r.status == 0 && decide (r.user_errors = []) && r.ret.isSome) ||
  (r.status == -1 && decide (r.user_errors.length = 1) && r.ret.isNone)

/-- The guard satisfies the error contract, returns OK iff no check is
violated, and invokes no callback iff no check is violated. -/
lemma fsoe_api_guard_spec {α : Type} (checks : List (Bool × fsoeapp_usererror)) (v : α) :
    fsoe_api_contract (fsoe_api_guard checks v) = true ∧
    ((fsoe_api_guard checks v).status = 0 ↔ checks.all (fun c => !c.1) = true) ∧
    ((fsoe_api_guard checks v).user_errors = [] ↔ checks.all (fun c => !c.1) = true) := by
  induction checks with
  | nil => refine ⟨rfl, by simp [fsoe_api_guard], by simp [fsoe_api_guard]⟩
  | cons c rest ih =>
    obtain ⟨b, e⟩ := c
    cases b with
    | true =>
      refine ⟨rfl, ?_, ?_⟩ <;> simp [fsoe_api_guard]
    | false =>
      refine ⟨ih.1, ?_, ?_⟩ <;>
        simp [fsoe_api_guard, ih.2.1, ih.2.2]

/-- True when the option holds an initialised master instance (magic set). -/
def fsoe_master_instance_initialised (master : Option fsoemaster_mem) : Bool :=
  match master with
  | none => false
  | some m => m.magic == FSOEMASTER_MAGIC

/-- True when the option holds an initialised slave instance (magic set). -/
def fsoe_slave_instance_initialised (slave : Option fsoeslave_mem) : Bool :=
  match slave with
  | none => false
  | some s => s.magic == FSOESLAVE_MAGIC

/-- True when the held master instance is in one of the given states. -/
def fsoe_master_state_in (master : Option fsoemaster_mem) (ss : List fsoestate) : Bool :=
  match master with
  | none => false
  | some m => ss.contains m.core.state

/-- True when the held slave instance is in one of the given states. -/
def fsoe_slave_state_in (slave : Option fsoeslave_mem) (ss : List fsoestate) : Bool :=
  match slave with
  | none => false
  | some s => ss.contains s.core.state

/-- Master configuration, embedded from `fsoemaster_cfg_t`
(fsoemaster.h lines 429-525). -/
structure fsoemaster_cfg where
  slave_address : Nat
  connection_id : Nat
  watchdog_timeout_ms : Nat
  application_parameters : List Nat
  application_parameters_size : Nat
  outputs_size : Nat
  inputs_size : Nat
deriving DecidableEq

/-- Slave configuration, embedded from `fsoeslave_cfg_t`
(fsoeslave.h lines 432-491). -/
structure fsoeslave_cfg where
  slave_address : Nat
  application_parameters_size : Nat
  inputs_size : Nat
  outputs_size : Nat
deriving DecidableEq

/-- ConnData block encoded from the master configuration: Connection ID then
Slave Address, little endian (fsoetypes.h `fsoeframe_encoded_conndata_t`). -/
def fsoemaster_encode_conndata (cfg : fsoemaster_cfg) : List Nat :=
  fsoe_uint16_bytes cfg.connection_id ++ fsoe_uint16_bytes cfg.slave_address

/-- SafePara block encoded from the master configuration: WatchdogSize (2),
watchdog timeout, application-parameter size, application parameters, all
little endian (fsoetypes.h `fsoeframe_encoded_safepara_t`). -/
def fsoemaster_encode_safepara (cfg : fsoemaster_cfg) : List Nat :=
  fsoe_uint16_bytes 2 ++ fsoe_uint16_bytes cfg.watchdog_timeout_ms ++
    fsoe_uint16_bytes cfg.application_parameters_size ++ cfg.application_parameters

/-- Both process-data sizes of a master configuration are valid
(1 or even within 2..126); false for a null configuration. -/
def fsoemaster_cfg_sizes_valid (cfg : Option fsoemaster_cfg) : Bool :=
  match cfg with
  | none => false
  | some c => fsoe_valid_data_size c.inputs_size && fsoe_valid_data_size c.outputs_size

/-- Both process-data sizes of a slave configuration are valid. -/
def fsoeslave_cfg_sizes_valid (cfg : Option fsoeslave_cfg) : Bool :=
  match cfg with
  | none => false
  | some c => fsoe_valid_data_size c.inputs_size && fsoe_valid_data_size c.outputs_size

/-- Placeholder master instance used as the never-exposed default value of a
failed API call. -/
def fsoemaster_mem_default : fsoemaster_mem :=
  { magic := 0, core := fsoemaster_initial 0 0 [] [] }

/-- Placeholder slave instance used as the never-exposed default value of a
failed API call. -/
def fsoeslave_mem_default : fsoeslave_mem :=
  { magic := 0, core := fsoeslave_initial 0 0 0 0 }

/-- Modelled from the spec: fsoemaster_update_sra_crc (fsoemaster.h lines
674-734) -- null-pointer checks on `crc` and `data`, then the pure CRC
update. -/
def fsoemaster_update_sra_crc_api (crc_null data_null : Bool) (crc : Nat)
    (data : List Nat) : fsoe_api_result Nat :=
  fsoe_api_guard
    [(crc_null, fsoeapp_usererror.null_argument),
     (data_null, fsoeapp_usererror.null_argument)]
    (fsoemaster_update_sra_crc crc data)

/-- Modelled from the spec: fsoemaster_get_state (fsoemaster.h lines
736-779). -/
def fsoemaster_get_state_api (master : Option fsoemaster_mem) (state_null : Bool) :
    fsoe_api_result fsoestate :=
  fsoe_api_guard
    [(master.isNone, fsoeapp_usererror.null_instance),
     (!fsoe_master_instance_initialised master, fsoeapp_usererror.uninitialised_instance),
     (state_null, fsoeapp_usererror.null_argument)]
    ((master.map (fun m => m.core.state)).getD fsoestate.reset)

/-- Modelled from the spec: fsoemaster_get_master_session_id (fsoemaster.h
lines 781-828); calling it in Reset state is a wrong-instance-state error. -/
def fsoemaster_get_master_session_id_api (master : Option fsoemaster_mem)
    (session_id_null : Bool) : fsoe_api_result Nat :=
  fsoe_api_guard
    [(master.isNone, fsoeapp_usererror.null_instance),
     (!fsoe_master_instance_initialised master, fsoeapp_usererror.uninitialised_instance),
     (session_id_null, fsoeapp_usererror.null_argument),
     (fsoe_master_state_in master [fsoestate.reset], fsoeapp_usererror.wrong_instance_state)]
    ((master.map (fun m => m.core.SessionId)).getD 0)

/-- Modelled from the spec: fsoemaster_get_slave_session_id (fsoemaster.h
lines 830-877); calling it in Reset or Session state is a
wrong-instance-state error. -/
def fsoemaster_get_slave_session_id_api (master : Option fsoemaster_mem)
    (session_id_null : Bool) : fsoe_api_result Nat :=
  fsoe_api_guard
    [(master.isNone, fsoeapp_usererror.null_instance),
     (!fsoe_master_instance_initialised master, fsoeapp_usererror.uninitialised_instance),
     (session_id_null, fsoeapp_usererror.null_argument),
     (fsoe_master_state_in master [fsoestate.reset, fsoestate.session],
       fsoeapp_usererror.wrong_instance_state)]
    ((master.map (fun m => m.core.slave_session_id)).getD 0)

/-- Modelled from the spec: fsoemaster_get_time_until_timeout_ms
(fsoemaster.h lines 879-920); the instance's watchdog state and the current
tick are passed explicitly. -/
def fsoemaster_get_time_until_timeout_ms_api (master : Option fsoemaster_mem)
    (time_null : Bool) (wd : fsoewatchdog) (now : Nat) : fsoe_api_result Nat :=
  fsoe_api_guard
    [(master.isNone, fsoeapp_usererror.null_instance),
     (!fsoe_master_instance_initialised master, fsoeapp_usererror.uninitialised_instance),
     (time_null, fsoeapp_usererror.null_argument)]
    (fsoewatchdog_get_time_until_timeout_ms wd now)

/-- Modelled from the spec: fsoemaster_get_process_data_sending_enable_flag
(fsoemaster.h lines 922-979). -/
def fsoemaster_get_process_data_sending_enable_flag_api (master : Option fsoemaster_mem)
    (is_enabled_null : Bool) : fsoe_api_result Bool :=
  fsoe_api_guard
    [(master.isNone, fsoeapp_usererror.null_instance),
     (!fsoe_master_instance_initialised master, fsoeapp_usererror.uninitialised_instance),
     (is_enabled_null, fsoeapp_usererror.null_argument)]
    ((master.map (fun m => m.core.process_data_sending_enabled)).getD false)

/-- Modelled from the spec: fsoemaster_set_process_data_sending_enable_flag
(fsoemaster.h lines 1029-1076). -/
def fsoemaster_set_process_data_sending_enable_flag_api
    (master : Option fsoemaster_mem) : fsoe_api_result fsoemaster_mem :=
  fsoe_api_guard
    [(master.isNone, fsoeapp_usererror.null_instance),
     (!fsoe_master_instance_initialised master, fsoeapp_usererror.uninitialised_instance)]
    ((master.map (fun m =>
      { m with core := { m.core with process_data_sending_enabled := true } })).getD
      fsoemaster_mem_default)

/-- Modelled from the spec: fsoemaster_clear_process_data_sending_enable_flag
(fsoemaster.h lines 981-1027). -/
def fsoemaster_clear_process_data_sending_enable_flag_api
    (master : Option fsoemaster_mem) : fsoe_api_result fsoemaster_mem :=
  fsoe_api_guard
    [(master.isNone, fsoeapp_usererror.null_instance),
     (!fsoe_master_instance_initialised master, fsoeapp_usererror.uninitialised_instance)]
    ((master.map (fun m =>
      { m with core := { m.core with process_data_sending_enabled := false } })).getD
      fsoemaster_mem_default)

/-- Modelled from the spec: fsoemaster_set_reset_request_flag (fsoemaster.h
lines 1078-1124). -/
def fsoemaster_set_reset_request_flag_api
    (master : Option fsoemaster_mem) : fsoe_api_result fsoemaster_mem :=
  fsoe_api_guard
    [(master.isNone, fsoeapp_usererror.null_instance),
     (!fsoe_master_instance_initialised master, fsoeapp_usererror.uninitialised_instance)]
    ((master.map (fun m =>
      { m with core := fsoemaster_set_reset_request_flag m.core })).getD
      fsoemaster_mem_default)

/-- Modelled from the spec: fsoemaster_sync_with_slave as an API entry
(fsoemaster.h lines 1126-1197) -- null checks for the instance and the three
buffer pointers, then one cycle of the core state machine. -/
def fsoemaster_sync_with_slave_api (master : Option fsoemaster_mem)
    (outputs_null inputs_null sync_status_null : Bool) (wd_expired : Bool)
    (rx : fsoemaster_rx) (outputs : List Nat) (gen_sid : Nat) :
    fsoe_api_result (fsoemaster_mem × fsoemaster_syncresult) :=
  fsoe_api_guard
    [(master.isNone, fsoeapp_usererror.null_instance),
     (!fsoe_master_instance_initialised master, fsoeapp_usererror.uninitialised_instance),
     (outputs_null, fsoeapp_usererror.null_argument),
     (inputs_null, fsoeapp_usererror.null_argument),
     (sync_status_null, fsoeapp_usererror.null_argument)]
    ((master.map (fun m =>
      ({ m with core := (fsoemaster_sync_with_slave m.core wd_expired rx outputs gen_sid).inst },
        fsoemaster_sync_with_slave m.core wd_expired rx outputs gen_sid))).getD
      (fsoemaster_mem_default, fsoemaster_sync_with_slave
        fsoemaster_mem_default.core false fsoemaster_rx.no_frame [] 0))

/-- Modelled from the spec: fsoemaster_init (fsoemaster.h lines 1199-1254
and the spec's operation table: "zero state; validate
inputs_size/outputs_size in {1, even 2..126}; set magic"). -/
def fsoemaster_init_api (master_null : Bool) (cfg : Option fsoemaster_cfg) :
    fsoe_api_result fsoemaster_mem :=
  fsoe_api_guard
    [(master_null, fsoeapp_usererror.null_instance),
     (cfg.isNone, fsoeapp_usererror.null_argument),
     (!fsoemaster_cfg_sizes_valid cfg, fsoeapp_usererror.bad_configuration)]
    ((cfg.map (fun c =>
      { magic := FSOEMASTER_MAGIC
        core := fsoemaster_initial c.inputs_size c.outputs_size
          (fsoemaster_encode_conndata c) (fsoemaster_encode_safepara c) })).getD
      fsoemaster_mem_default)

/-- Modelled from the spec: fsoeslave_update_sra_crc (fsoeslave.h lines
641-701). -/
def fsoeslave_update_sra_crc_api (crc_null data_null : Bool) (crc : Nat)
    (data : List Nat) : fsoe_api_result Nat :=
  fsoe_api_guard
    [(crc_null, fsoeapp_usererror.null_argument),
     (data_null, fsoeapp_usererror.null_argument)]
    (fsoeslave_update_sra_crc crc data)

/-- Modelled from the spec: fsoeslave_get_state (fsoeslave.h lines 703-746). -/
def fsoeslave_get_state_api (slave : Option fsoeslave_mem) (state_null : Bool) :
    fsoe_api_result fsoestate :=
  fsoe_api_guard
    [(slave.isNone, fsoeapp_usererror.null_instance),
     (!fsoe_slave_instance_initialised slave, fsoeapp_usererror.uninitialised_instance),
     (state_null, fsoeapp_usererror.null_argument)]
    ((slave.map (fun s => s.core.state)).getD fsoestate.reset)

/-- Modelled from the spec: fsoeslave_get_slave_session_id (fsoeslave.h lines
748-795); calling it in Reset state is a wrong-instance-state error. -/
def fsoeslave_get_slave_session_id_api (slave : Option fsoeslave_mem)
    (session_id_null : Bool) : fsoe_api_result Nat :=
  fsoe_api_guard
    [(slave.isNone, fsoeapp_usererror.null_instance),
     (!fsoe_slave_instance_initialised slave, fsoeapp_usererror.uninitialised_instance),
     (session_id_null, fsoeapp_usererror.null_argument),
     (fsoe_slave_state_in slave [fsoestate.reset], fsoeapp_usererror.wrong_instance_state)]
    ((slave.map (fun s => s.core.SessionId)).getD 0)

/-- Modelled from the spec: fsoeslave_get_master_session_id (fsoeslave.h
lines 797-844); calling it in Reset or Session state is a
wrong-instance-state error. -/
def fsoeslave_get_master_session_id_api (slave : Option fsoeslave_mem)
    (session_id_null : Bool) : fsoe_api_result Nat :=
  fsoe_api_guard
    [(slave.isNone, fsoeapp_usererror.null_instance),
     (!fsoe_slave_instance_initialised slave, fsoeapp_usererror.uninitialised_instance),
     (session_id_null, fsoeapp_usererror.null_argument),
     (fsoe_slave_state_in slave [fsoestate.reset, fsoestate.session],
       fsoeapp_usererror.wrong_instance_state)]
    ((slave.map (fun s => s.core.master_session_id)).getD 0)

/-- Modelled from the spec: fsoeslave_get_time_until_timeout_ms (fsoeslave.h);
the instance's watchdog state and the current tick are passed explicitly. -/
def fsoeslave_get_time_until_timeout_ms_api (slave : Option fsoeslave_mem)
    (time_null : Bool) (wd : fsoewatchdog) (now : Nat) : fsoe_api_result Nat :=
  fsoe_api_guard
    [(slave.isNone, fsoeapp_usererror.null_instance),
     (!fsoe_slave_instance_initialised slave, fsoeapp_usererror.uninitialised_instance),
     (time_null, fsoeapp_usererror.null_argument)]
    (fsoewatchdog_get_time_until_timeout_ms wd now)

/-- Modelled from the spec: fsoeslave_get_process_data_sending_enable_flag
(fsoeslave.h lines 846-903). -/
def fsoeslave_get_process_data_sending_enable_flag_api (slave : Option fsoeslave_mem)
    (is_enabled_null : Bool) : fsoe_api_result Bool :=
  fsoe_api_guard
    [(slave.isNone, fsoeapp_usererror.null_instance),
     (!fsoe_slave_instance_initialised slave, fsoeapp_usererror.uninitialised_instance),
     (is_enabled_null, fsoeapp_usererror.null_argument)]
    ((slave.map (fun s => s.core.process_data_sending_enabled)).getD false)

/-- Modelled from the spec: fsoeslave_set_process_data_sending_enable_flag
(fsoeslave.h lines 953-1000). -/
def fsoeslave_set_process_data_sending_enable_flag_api
    (slave : Option fsoeslave_mem) : fsoe_api_result fsoeslave_mem :=
  fsoe_api_guard
    [(slave.isNone, fsoeapp_usererror.null_instance),
     (!fsoe_slave_instance_initialised slave, fsoeapp_usererror.uninitialised_instance)]
    ((slave.map (fun s =>
      { s with core := { s.core with process_data_sending_enabled := true } })).getD
      fsoeslave_mem_default)

/-- Modelled from the spec: fsoeslave_clear_process_data_sending_enable_flag
(fsoeslave.h lines 905-951). -/
def fsoeslave_clear_process_data_sending_enable_flag_api
    (slave : Option fsoeslave_mem) : fsoe_api_result fsoeslave_mem :=
  fsoe_api_guard
    [(slave.isNone, fsoeapp_usererror.null_instance),
     (!fsoe_slave_instance_initialised slave, fsoeapp_usererror.uninitialised_instance)]
    ((slave.map (fun s =>
      { s with core := { s.core with process_data_sending_enabled := false } })).getD
      fsoeslave_mem_default)

/-- Modelled from the spec: fsoeslave_set_reset_request_flag (fsoeslave.h
lines 1002-1048). -/
def fsoeslave_set_reset_request_flag_api
    (slave : Option fsoeslave_mem) : fsoe_api_result fsoeslave_mem :=
  fsoe_api_guard
    [(slave.isNone, fsoeapp_usererror.null_instance),
     (!fsoe_slave_instance_initialised slave, fsoeapp_usererror.uninitialised_instance)]
    ((slave.map (fun s =>
      { s with core := fsoeslave_set_reset_request_flag s.core })).getD
      fsoeslave_mem_default)

/-- Modelled from the spec: fsoeslave_sync_with_master as an API entry
(fsoeslave.h lines 1050-1117). -/
def fsoeslave_sync_with_master_api (slave : Option fsoeslave_mem)
    (outputs_null inputs_null sync_status_null : Bool) (wd_expired : Bool)
    (rx : fsoeslave_rx) (inputs : List Nat) (verify_result gen_sid : Nat) :
    fsoe_api_result (fsoeslave_mem × fsoeslave_syncresult) :=
  fsoe_api_guard
    [(slave.isNone, fsoeapp_usererror.null_instance),
     (!fsoe_slave_instance_initialised slave, fsoeapp_usererror.uninitialised_instance),
     (outputs_null, fsoeapp_usererror.null_argument),
     (inputs_null, fsoeapp_usererror.null_argument),
     (sync_status_null, fsoeapp_usererror.null_argument)]
    ((slave.map (fun s =>
      ({ s with core :=
          (fsoeslave_sync_with_master s.core wd_expired rx inputs verify_result gen_sid).inst },
        fsoeslave_sync_with_master s.core wd_expired rx inputs verify_result gen_sid))).getD
      (fsoeslave_mem_default, fsoeslave_sync_with_master
        fsoeslave_mem_default.core false fsoeslave_rx.no_frame [] 0 0))

/-- Modelled from the spec: fsoeslave_init (fsoeslave.h lines 1119-1176 and
the spec's operation table). -/
def fsoeslave_init_api (slave_null : Bool) (cfg : Option fsoeslave_cfg) :
    fsoe_api_result fsoeslave_mem :=
  fsoe_api_guard
    [(slave_null, fsoeapp_usererror.null_instance),
     (cfg.isNone, fsoeapp_usererror.null_argument),
     (!fsoeslave_cfg_sizes_valid cfg, fsoeapp_usererror.bad_configuration)]
    ((cfg.map (fun c =>
      { magic := FSOESLAVE_MAGIC
        core := fsoeslave_initial c.inputs_size c.outputs_size c.slave_address
          c.application_parameters_size })).getD
      fsoeslave_mem_default)

/-- Claim C6: every public status-returning API operation of the master and
slave stacks satisfies the error contract -- when a precondition is violated
the operation invokes fsoeapp_handle_user_error exactly once and returns the
ERROR status (-1) without producing a value, and it returns OK (0) with no
callback invocation exactly when all its documented preconditions hold. -/
theorem C6_api_precondition_contract :
    (∀ (a b : Bool) (crc : Nat) (data : List Nat),
      fsoe_api_contract (fsoemaster_update_sra_crc_api a b crc data) = true ∧
      ((fsoemaster_update_sra_crc_api a b crc data).status = FSOEMASTER_STATUS_OK ↔
        (a = false ∧ b = false)) ∧
      ((fsoemaster_update_sra_crc_api a b crc data).user_errors = [] ↔
        (a = false ∧ b = false))) ∧
    (∀ (mm : Option fsoemaster_mem) (p : Bool),
      fsoe_api_contract (fsoemaster_get_state_api mm p) = true ∧
      ((fsoemaster_get_state_api mm p).status = FSOEMASTER_STATUS_OK ↔
        (mm.isNone = false ∧ fsoe_master_instance_initialised mm = true ∧ p = false)) ∧
      ((fsoemaster_get_state_api mm p).user_errors = [] ↔
        (mm.isNone = false ∧ fsoe_master_instance_initialised mm = true ∧ p = false))) ∧
    (∀ (mm : Option fsoemaster_mem) (p : Bool),
      fsoe_api_contract (fsoemaster_get_master_session_id_api mm p) = true ∧
      ((fsoemaster_get_master_session_id_api mm p).status = FSOEMASTER_STATUS_OK ↔
        (mm.isNone = false ∧ fsoe_master_instance_initialised mm = true ∧ p = false ∧ fsoe_master_state_in mm [fsoestate.reset] = false)) ∧
      ((fsoemaster_get_master_session_id_api mm p).user_errors = [] ↔
        (mm.isNone = false ∧ fsoe_master_instance_initialised mm = true ∧ p = false ∧ fsoe_master_state_in mm [fsoestate.reset] = false))) ∧
    (∀ (mm : Option fsoemaster_mem) (p : Bool),
      fsoe_api_contract (fsoemaster_get_slave_session_id_api mm p) = true ∧
      ((fsoemaster_get_slave_session_id_api mm p).status = FSOEMASTER_STATUS_OK ↔
        (mm.isNone = false ∧ fsoe_master_instance_initialised mm = true ∧ p = false ∧ fsoe_master_state_in mm [fsoestate.reset, fsoestate.session] = false)) ∧
      ((fsoemaster_get_slave_session_id_api mm p).user_errors = [] ↔
        (mm.isNone = false ∧ fsoe_master_instance_initialised mm = true ∧ p = false ∧ fsoe_master_state_in mm [fsoestate.reset, fsoestate.session] = false))) ∧
    (∀ (mm : Option fsoemaster_mem) (p : Bool) (wd : fsoewatchdog) (now : Nat),
      fsoe_api_contract (fsoemaster_get_time_until_timeout_ms_api mm p wd now) = true ∧
      ((fsoemaster_get_time_until_timeout_ms_api mm p wd now).status = FSOEMASTER_STATUS_OK ↔
        (mm.isNone = false ∧ fsoe_master_instance_initialised mm = true ∧ p = false)) ∧
      ((fsoemaster_get_time_until_timeout_ms_api mm p wd now).user_errors = [] ↔
        (mm.isNone = false ∧ fsoe_master_instance_initialised mm = true ∧ p = false))) ∧
    (∀ (mm : Option fsoemaster_mem) (p : Bool),
      fsoe_api_contract (fsoemaster_get_process_data_sending_enable_flag_api mm p) = true ∧
      ((fsoemaster_get_process_data_sending_enable_flag_api mm p).status = FSOEMASTER_STATUS_OK ↔
        (mm.isNone = false ∧ fsoe_master_instance_initialised mm = true ∧ p = false)) ∧
      ((fsoemaster_get_process_data_sending_enable_flag_api mm p).user_errors = [] ↔
        (mm.isNone = false ∧ fsoe_master_instance_initialised mm = true ∧ p = false))) ∧
    (∀ (mm : Option fsoemaster_mem),
      fsoe_api_contract (fsoemaster_set_process_data_sending_enable_flag_api mm) = true ∧
      ((fsoemaster_set_process_data_sending_enable_flag_api mm).status = FSOEMASTER_STATUS_OK ↔
        (mm.isNone = false ∧ fsoe_master_instance_initialised mm = true)) ∧
      ((fsoemaster_set_process_data_sending_enable_flag_api mm).user_errors = [] ↔
        (mm.isNone = false ∧ fsoe_master_instance_initialised mm = true))) ∧
    (∀ (mm : Option fsoemaster_mem),
      fsoe_api_contract (fsoemaster_clear_process_data_sending_enable_flag_api mm) = true ∧
      ((fsoemaster_clear_process_data_sending_enable_flag_api mm).status = FSOEMASTER_STATUS_OK ↔
        (mm.isNone = false ∧ fsoe_master_instance_initialised mm = true)) ∧
      ((fsoemaster_clear_process_data_sending_enable_flag_api mm).user_errors = [] ↔
        (mm.isNone = false ∧ fsoe_master_instance_initialised mm = true))) ∧
    (∀ (mm : Option fsoemaster_mem),
      fsoe_api_contract (fsoemaster_set_reset_request_flag_api mm) = true ∧
      ((fsoemaster_set_reset_request_flag_api mm).status = FSOEMASTER_STATUS_OK ↔
        (mm.isNone = false ∧ fsoe_master_instance_initialised mm = true)) ∧
      ((fsoemaster_set_reset_request_flag_api mm).user_errors = [] ↔
        (mm.isNone = false ∧ fsoe_master_instance_initialised mm = true))) ∧
    (∀ (mm : Option fsoemaster_mem) (o i st wd : Bool) (rx : fsoemaster_rx) (outs : List Nat) (sid : Nat),
      fsoe_api_contract (fsoemaster_sync_with_slave_api mm o i st wd rx outs sid) = true ∧
      ((fsoemaster_sync_with_slave_api mm o i st wd rx outs sid).status = FSOEMASTER_STATUS_OK ↔
        (mm.isNone = false ∧ fsoe_master_instance_initialised mm = true ∧ o = false ∧ i = false ∧ st = false)) ∧
      ((fsoemaster_sync_with_slave_api mm o i st wd rx outs sid).user_errors = [] ↔
        (mm.isNone = false ∧ fsoe_master_instance_initialised mm = true ∧ o = false ∧ i = false ∧ st = false))) ∧
    (∀ (mn : Bool) (cfg : Option fsoemaster_cfg),
      fsoe_api_contract (fsoemaster_init_api mn cfg) = true ∧
      ((fsoemaster_init_api mn cfg).status = FSOEMASTER_STATUS_OK ↔
        (mn = false ∧ cfg.isNone = false ∧ fsoemaster_cfg_sizes_valid cfg = true)) ∧
      ((fsoemaster_init_api mn cfg).user_errors = [] ↔
        (mn = false ∧ cfg.isNone = false ∧ fsoemaster_cfg_sizes_valid cfg = true))) ∧
    (∀ (a b : Bool) (crc : Nat) (data : List Nat),
      fsoe_api_contract (fsoeslave_update_sra_crc_api a b crc data) = true ∧
      ((fsoeslave_update_sra_crc_api a b crc data).status = FSOESLAVE_STATUS_OK ↔
        (a = false ∧ b = false)) ∧
      ((fsoeslave_update_sra_crc_api a b crc data).user_errors = [] ↔
        (a = false ∧ b = false))) ∧
    (∀ (ss : Option fsoeslave_mem) (p : Bool),
      fsoe_api_contract (fsoeslave_get_state_api ss p) = true ∧
      ((fsoeslave_get_state_api ss p).status = FSOESLAVE_STATUS_OK ↔
        (ss.isNone = false ∧ fsoe_slave_instance_initialised ss = true ∧ p = false)) ∧
      ((fsoeslave_get_state_api ss p).user_errors = [] ↔
        (ss.isNone = false ∧ fsoe_slave_instance_initialised ss = true ∧ p = false))) ∧
    (∀ (ss : Option fsoeslave_mem) (p : Bool),
      fsoe_api_contract (fsoeslave_get_slave_session_id_api ss p) = true ∧
      ((fsoeslave_get_slave_session_id_api ss p).status = FSOESLAVE_STATUS_OK ↔
        (ss.isNone = false ∧ fsoe_slave_instance_initialised ss = true ∧ p = false ∧ fsoe_slave_state_in ss [fsoestate.reset] = false)) ∧
      ((fsoeslave_get_slave_session_id_api ss p).user_errors = [] ↔
        (ss.isNone = false ∧ fsoe_slave_instance_initialised ss = true ∧ p = false ∧ fsoe_slave_state_in ss [fsoestate.reset] = false))) ∧
    (∀ (ss : Option fsoeslave_mem) (p : Bool),
      fsoe_api_contract (fsoeslave_get_master_session_id_api ss p) = true ∧
      ((fsoeslave_get_master_session_id_api ss p).status = FSOESLAVE_STATUS_OK ↔
        (ss.isNone = false ∧ fsoe_slave_instance_initialised ss = true ∧ p = false ∧ fsoe_slave_state_in ss [fsoestate.reset, fsoestate.session] = false)) ∧
      ((fsoeslave_get_master_session_id_api ss p).user_errors = [] ↔
        (ss.isNone = false ∧ fsoe_slave_instance_initialised ss = true ∧ p = false ∧ fsoe_slave_state_in ss [fsoestate.reset, fsoestate.session] = false))) ∧
    (∀ (ss : Option fsoeslave_mem) (p : Bool) (wd : fsoewatchdog) (now : Nat),
      fsoe_api_contract (fsoeslave_get_time_until_timeout_ms_api ss p wd now) = true ∧
      ((fsoeslave_get_time_until_timeout_ms_api ss p wd now).status = FSOESLAVE_STATUS_OK ↔
        (ss.isNone = false ∧ fsoe_slave_instance_initialised ss = true ∧ p = false)) ∧
      ((fsoeslave_get_time_until_timeout_ms_api ss p wd now).user_errors = [] ↔
        (ss.isNone = false ∧ fsoe_slave_instance_initialised ss = true ∧ p = false))) ∧
    (∀ (ss : Option fsoeslave_mem) (p : Bool),
      fsoe_api_contract (fsoeslave_get_process_data_sending_enable_flag_api ss p) = true ∧
      ((fsoeslave_get_process_data_sending_enable_flag_api ss p).status = FSOESLAVE_STATUS_OK ↔
        (ss.isNone = false ∧ fsoe_slave_instance_initialised ss = true ∧ p = false)) ∧
      ((fsoeslave_get_process_data_sending_enable_flag_api ss p).user_errors = [] ↔
        (ss.isNone = false ∧ fsoe_slave_instance_initialised ss = true ∧ p = false))) ∧
    (∀ (ss : Option fsoeslave_mem),
      fsoe_api_contract (fsoeslave_set_process_data_sending_enable_flag_api ss) = true ∧
      ((fsoeslave_set_process_data_sending_enable_flag_api ss).status = FSOESLAVE_STATUS_OK ↔
        (ss.isNone = false ∧ fsoe_slave_instance_initialised ss = true)) ∧
      ((fsoeslave_set_process_data_sending_enable_flag_api ss).user_errors = [] ↔
        (ss.isNone = false ∧ fsoe_slave_instance_initialised ss = true))) ∧
    (∀ (ss : Option fsoeslave_mem),
      fsoe_api_contract (fsoeslave_clear_process_data_sending_enable_flag_api ss) = true ∧
      ((fsoeslave_clear_process_data_sending_enable_flag_api ss).status = FSOESLAVE_STATUS_OK ↔
        (ss.isNone = false ∧ fsoe_slave_instance_initialised ss = true)) ∧
      ((fsoeslave_clear_process_data_sending_enable_flag_api ss).user_errors = [] ↔
        (ss.isNone = false ∧ fsoe_slave_instance_initialised ss = true))) ∧
    (∀ (ss : Option fsoeslave_mem),
      fsoe_api_contract (fsoeslave_set_reset_request_flag_api ss) = true ∧
      ((fsoeslave_set_reset_request_flag_api ss).status = FSOESLAVE_STATUS_OK ↔
        (ss.isNone = false ∧ fsoe_slave_instance_initialised ss = true)) ∧
      ((fsoeslave_set_reset_request_flag_api ss).user_errors = [] ↔
        (ss.isNone = false ∧ fsoe_slave_instance_initialised ss = true))) ∧
    (∀ (ss : Option fsoeslave_mem) (o i st wd : Bool) (rx : fsoeslave_rx) (ins : List Nat) (vr sid : Nat),
      fsoe_api_contract (fsoeslave_sync_with_master_api ss o i st wd rx ins vr sid) = true ∧
      ((fsoeslave_sync_with_master_api ss o i st wd rx ins vr sid).status = FSOESLAVE_STATUS_OK ↔
        (ss.isNone = false ∧ fsoe_slave_instance_initialised ss = true ∧ o = false ∧ i = false ∧ st = false)) ∧
      ((fsoeslave_sync_with_master_api ss o i st wd rx ins vr sid).user_errors = [] ↔
        (ss.isNone = false ∧ fsoe_slave_instance_initialised ss = true ∧ o = false ∧ i = false ∧ st = false))) ∧
    (∀ (sn : Bool) (cfg : Option fsoeslave_cfg),
      fsoe_api_contract (fsoeslave_init_api sn cfg) = true ∧
      ((fsoeslave_init_api sn cfg).status = FSOESLAVE_STATUS_OK ↔
        (sn = false ∧ cfg.isNone = false ∧ fsoeslave_cfg_sizes_valid cfg = true)) ∧
      ((fsoeslave_init_api sn cfg).user_errors = [] ↔
        (sn = false ∧ cfg.isNone = false ∧ fsoeslave_cfg_sizes_valid cfg = true))) := by
  refine ⟨?_, ?_, ?_, ?_, ?_, ?_, ?_, ?_, ?_, ?_, ?_, ?_, ?_, ?_, ?_, ?_, ?_, ?_, ?_, ?_, ?_, ?_⟩ <;>
    (intros
     refine ⟨(fsoe_api_guard_spec _ _).1,
       ((fsoe_api_guard_spec _ _).2.1).trans ?_,
       ((fsoe_api_guard_spec _ _).2.2).trans ?_⟩ <;>
     simp [and_assoc])

/-- Claim C9: fsoemaster_init (and fsoeslave_init) succeeds -- returning OK
and producing the instance with zeroed state and the magic field set -- if
and only if the configuration's inputs_size and outputs_size are each 1 or an
even number between 2 and 126; for any other size value it invokes
fsoeapp_handle_user_error with BAD_CONFIGURATION and returns ERROR. -/
theorem C9_init_validates_data_sizes :
    (∀ cfg : fsoemaster_cfg,
      (((fsoemaster_init_api false (some cfg)).status = FSOEMASTER_STATUS_OK ∧
        (fsoemaster_init_api false (some cfg)).ret = some
          { magic := FSOEMASTER_MAGIC
            core := fsoemaster_initial cfg.inputs_size cfg.outputs_size
              (fsoemaster_encode_conndata cfg) (fsoemaster_encode_safepara cfg) }) ↔
        (fsoe_valid_data_size cfg.inputs_size = true ∧
          fsoe_valid_data_size cfg.outputs_size = true)) ∧
      ((fsoemaster_init_api false (some cfg)).user_errors =
        if fsoe_valid_data_size cfg.inputs_size && fsoe_valid_data_size cfg.outputs_size
        then [] else [fsoeapp_usererror.bad_configuration]) ∧
      ((fsoemaster_init_api false (some cfg)).status =
        if fsoe_valid_data_size cfg.inputs_size && fsoe_valid_data_size cfg.outputs_size
        then FSOEMASTER_STATUS_OK else FSOEMASTER_STATUS_ERROR)) ∧
    (∀ cfg : fsoeslave_cfg,
      (((fsoeslave_init_api false (some cfg)).status = FSOESLAVE_STATUS_OK ∧
        (fsoeslave_init_api false (some cfg)).ret = some
          { magic := FSOESLAVE_MAGIC
            core := fsoeslave_initial cfg.inputs_size cfg.outputs_size
              cfg.slave_address cfg.application_parameters_size }) ↔
        (fsoe_valid_data_size cfg.inputs_size = true ∧
          fsoe_valid_data_size cfg.outputs_size = true)) ∧
      ((fsoeslave_init_api false (some cfg)).user_errors =
        if fsoe_valid_data_size cfg.inputs_size && fsoe_valid_data_size cfg.outputs_size
        then [] else [fsoeapp_usererror.bad_configuration]) ∧
      ((fsoeslave_init_api false (some cfg)).status =
        if fsoe_valid_data_size cfg.inputs_size && fsoe_valid_data_size cfg.outputs_size
        then FSOESLAVE_STATUS_OK else FSOESLAVE_STATUS_ERROR)) := by
  constructor <;> intro cfg <;>
    rcases hv1 : fsoe_valid_data_size cfg.inputs_size <;>
    rcases hv2 : fsoe_valid_data_size cfg.outputs_size <;>
    simp [fsoemaster_init_api, fsoeslave_init_api, fsoemaster_cfg_sizes_valid,
      fsoeslave_cfg_sizes_valid, fsoe_api_guard, hv1, hv2,
      FSOEMASTER_STATUS_OK, FSOEMASTER_STATUS_ERROR,
      FSOESLAVE_STATUS_OK, FSOESLAVE_STATUS_ERROR]
